import Mathlib

/-
Verification development for the partybox repository.

Shallow embedding of the two core components:
  * `src/partybox/audio_mode.py`  (AudioModeManager: the mode orchestrator)
  * `src/partybox/spotify_client.py` (SpotifyClient: the streaming resilience client)

External effects are modelled explicitly:
  * every `subprocess` invocation consumes one `ExecOutcome` from an
    environment `Nat → ExecOutcome` (indexed by the number of commands
    issued so far) and appends the issued command to a trace;
  * the SQLite settings store (`db.get_setting` / `db.set_setting`) is an
    association list of string key/value pairs threaded through the state;
  * `time.time()` is a frozen clock `now : Nat` carried in the state;
  * HTTP calls of the Spotify client consume one `HttpOutcome` per call
    from an environment `Nat → HttpOutcome` and append the endpoint to a
    trace.

Instrumentation fields (`trace`, `applyLog`, `pauseCalls`, `httpTrace`) are
write-only ghosts: no embedded function reads them, they only record which
external actions were performed, so theorems can count them.
-/

namespace PartyboxSpec

/-! ### Python string primitives, implemented structurally over `List Char` -/

/-- Python `str.lower()` restricted to ASCII (all strings handled by the code
under scrutiny are ASCII). -/
def pyLower (s : String) : String := String.mk (s.data.map Char.toLower)

def dropLeadingWs : List Char → List Char
  | [] => []
  | c :: rest => if c.isWhitespace then dropLeadingWs rest else c :: rest

/-- Python `str.strip()`: remove leading and trailing whitespace. -/
def pyStrip (s : String) : String :=
  String.mk ((dropLeadingWs ((dropLeadingWs s.data).reverse)).reverse)

/-- `needle` occurs as a contiguous run inside `hay` (Python `needle in hay`). -/
def listHasSub (hay needle : List Char) : Bool :=
  match hay with
  | [] => needle.isEmpty
  | _ :: rest => needle.isPrefixOf hay || listHasSub rest needle

def pyIn (needle hay : String) : Bool := listHasSub hay.data needle.data

/-- Python `int(s)` on a decimal string: strips whitespace, accepts an
optional sign followed by one or more digits, raises `ValueError` otherwise. -/
def pyInt (s : String) : Except String Int :=
  let t := pyStrip s
  let core : List Char :=
    match t.data with
    | c :: rest => if c = '+' || c = '-' then rest else t.data
    | [] => []
  let neg : Bool := match t.data with | c :: _ => c = '-' | [] => false
  if core ≠ [] && core.all Char.isDigit then
    let n : Nat := core.foldl (fun acc c => acc * 10 + (c.toNat - 48)) 0
    .ok (if neg then -(n : Int) else (n : Int))
  else
    .error ("invalid literal for int with base 10: " ++ t)

/-- Split a character list at every occurrence of `sep`. -/
def splitOnCh (sep : Char) : List Char → List (List Char)
  | [] => [[]]
  | c :: rest =>
    let r := splitOnCh sep rest
    if c = sep then [] :: r
    else
      match r with
      | head :: tail => (c :: head) :: tail
      | [] => [[c]]

/-- Python `str.splitlines()` for newline-separated output. -/
def pyLines (s : String) : List String :=
  match (splitOnCh '\n' s.data).map String.mk with
  | [] => []
  | parts => if s.data.getLast? = some '\n' then parts.dropLast else parts

def joinWith (sep : String) : List String → String
  | [] => ""
  | [x] => x
  | x :: rest => x ++ sep ++ joinWith sep rest

/-- Python `line.split(" ", 2)`. -/
def pySplitSpaceMax2 (s : String) : List String :=
  match (splitOnCh ' ' s.data).map String.mk with
  | a :: b :: rest => if rest = [] then [a, b] else [a, b, joinWith " " rest]
  | xs => xs

/-- The single-quote character, used by `shlex.quote`. -/
def sq : String := String.mk [Char.ofNat 39]

def shlexSafeChar (c : Char) : Bool :=
  c.isAlphanum || c = '_' || c = '@' || c = '%' || c = '+' || c = '=' ||
  c = ':' || c = ',' || c = '.' || c = '/' || c = '-'

/-- Python `shlex.quote`. -/
def shlexQuote (s : String) : String :=
  if s = "" then sq ++ sq
  else if s.data.all shlexSafeChar then s
  else
    let esc := String.mk (s.data.flatMap fun c =>
      if c = Char.ofNat 39 then (sq ++ "\"" ++ sq ++ "\"" ++ sq).data else [c])
    sq ++ esc ++ sq

/-- `" ".join(shlex.quote(c) for c in cmd)` from `AudioModeManager._run`. -/
def quoteJoin (cmd : List String) : String := joinWith " " (cmd.map shlexQuote)

/-! ### ProcessRunner: `AudioModeManager._run` -/

/-- How one `subprocess` invocation ends, as far as `_run` can observe:
normal completion, `TimeoutExpired`, or an exception while spawning. -/
inductive ExecOutcome where
  | completed (returncode : Int) (stdout stderr : String) (elapsedMs : Nat)
  | timedOut (stdout : String) (elapsedMs : Nat)
  | spawnError (msg : String) (elapsedMs : Nat)
deriving Repr, DecidableEq

/-- The uniform structured result returned by `AudioModeManager._run`. -/
structure RunResult where
  ok : Bool
  returncode : Int
  cmd : String
  stdout : String
  stderr : String
  elapsed_ms : Nat
deriving Repr, DecidableEq

/-- `AudioModeManager._run`, for a given outcome of the underlying process.
`timeoutLabel` is the textual rendering of the float timeout argument
(only used in the timeout message). -/
def runResultOf (outcome : ExecOutcome) (cmd : List String) (timeoutLabel : String) :
    RunResult :=
  match outcome with
  | .completed rc out err ms =>
    { ok := rc == 0, returncode := rc, cmd := quoteJoin cmd,
      stdout := pyStrip out, stderr := pyStrip err, elapsed_ms := ms }
  | .timedOut out ms =>
    { ok := false, returncode := -1, cmd := quoteJoin cmd,
      stdout := pyStrip out,
      stderr := "command timed out after " ++ timeoutLabel ++ "s", elapsed_ms := ms }
  | .spawnError msg ms =>
    { ok := false, returncode := -1, cmd := quoteJoin cmd,
      stdout := "", stderr := msg, elapsed_ms := ms }

/-! ### Audio mode orchestrator: constants and state -/

/-- `VALID_MEDIA_MODES` from `audio_mode.py`. -/
def VALID_MEDIA_MODES : List String :=
  ["partybox", "spotify", "airplay", "bluetooth", "tv", "mute"]

/-- `MANAGED_MODE_SERVICES` from `audio_mode.py`. -/
def MANAGED_MODE_SERVICES : List String :=
  ["partybox-player.service", "librespot.service",
   "partybox-airplay.service", "partybox-bluetooth.service"]

/-- `MODE_START_SERVICES` from `audio_mode.py` (`dict.get(mode, ())`). -/
def MODE_START_SERVICES (mode : String) : List String :=
  if mode = "partybox" then ["partybox-player.service"]
  else if mode = "spotify" then ["librespot.service"]
  else if mode = "airplay" then ["partybox-airplay.service"]
  else if mode = "bluetooth" then ["bluetooth.service", "partybox-bluetooth.service"]
  else []

def SETTING_MEDIA_MODE : String := "media_mode"
def SETTING_LAST_SWITCH_TS : String := "media_mode_last_switch_ts"
def SETTING_LAST_ERROR : String := "media_mode_last_error"

/-- `sorted(set(MANAGED_MODE_SERVICES + ("bluetooth.service",)))` used by
`_service_states`. -/
def STATUS_UNITS : List String :=
  ["bluetooth.service", "librespot.service", "partybox-airplay.service",
   "partybox-bluetooth.service", "partybox-player.service"]

/-- Environment-derived configuration read in `AudioModeManager.__init__`. -/
structure AConfig where
  sudoBin : String := "sudo"
  systemctlBin : String := "systemctl"
  btAlias : String := "PartyBox BT"
  statusCacheTtl : Nat := 5
  alwaysQueryBt : Bool := false
deriving Repr, DecidableEq

/-- One entry of the per-switch action log (`actions` list). -/
inductive ActionEntry where
  | pauseAttempt (ok : Bool) (err : String)
  | stop (unit : String) (ok ignored : Bool) (r : RunResult)
  | bt (args : List String) (ok : Bool) (r : RunResult)
  | sinkMute (desired : Bool) (ok : Bool) (r : RunResult)
  | sinkVolume (pct : Int) (ok : Bool) (r : RunResult)
  | start (unit : String) (ok ignored : Bool) (r : RunResult)
  | verify (unit : String) (ok : Bool) (status : String) (stderr : String)
  | switchError (e : String)
  | fallbackError (e : String)
  | ensureError (e : String)
deriving Repr, DecidableEq

structure SvcState where
  active : Bool
  status : String
  stderr : String
deriving Repr, DecidableEq

/-- The payload returned by `get_media_mode_status` (the `noop` / `ensured`
keys are added only to returned copies, never to the cached one). -/
structure StatusPayload where
  mode : String
  valid_modes : List String
  last_switch_ts : Int
  last_error : String
  services : List (String × SvcState)
  audio_muted : Option Bool
  bluetooth_connected_devices : List String
  last_actions : List ActionEntry
  noop : Bool := false
  ensured : Bool := false
deriving Repr, DecidableEq

/-- The world state threaded through the orchestrator.  `settings` is the
SQLite key/value store; `lastActionsStored` models the JSON-serialized action
log written under `SETTING_LAST_ACTIONS` (kept structured instead of as a
JSON string); `calls`, `trace`, `applyLog`, `pauseCalls` are ghost
instrumentation of external effects; `now` is the frozen `time.time()`. -/
structure AState where
  settings : List (String × String)
  lastActionsStored : List ActionEntry := []
  calls : Nat := 0
  trace : List (List String) := []
  applyLog : List (String × String) := []
  pauseCalls : Nat := 0
  statusCache : Option StatusPayload := none
  statusCacheTs : Nat := 0
  now : Nat := 0
deriving Repr, DecidableEq

/-- Environment: the outcome of the n-th external command issued. -/
abbrev AEnv := Nat → ExecOutcome

/-- `db.get_setting(k, default)` (all call sites pass a string default). -/
def getSettingRaw : List (String × String) → String → Option String
  | [], _ => none
  | (k, v) :: rest, key => if k = key then some v else getSettingRaw rest key

def get_setting (st : List (String × String)) (key dflt : String) : String :=
  (getSettingRaw st key).getD dflt

def set_setting (st : List (String × String)) (key v : String) :
    List (String × String) :=
  (key, v) :: st

/-! ### Audio mode orchestrator: command helpers -/

/-- Issue one external command: consume the next `ExecOutcome`, build the
`_run` result, and record the command in the ghost trace. -/
def runCmd (env : AEnv) (cmd : List String) (timeoutLabel : String) (s : AState) :
    RunResult × AState :=
  (runResultOf (env s.calls) cmd timeoutLabel,
   { s with calls := s.calls + 1, trace := s.trace ++ [cmd] })

/-- The tolerated-missing adjustment done by `_systemctl` after `_run`:
returns the effective `(ok, ignored)` pair. -/
def systemctlAdjust (r : RunResult) (tolerateMissing : Bool) : Bool × Bool :=
  if r.ok then (true, false)
  else
    let err := pyLower r.stderr
    if tolerateMissing && (pyIn "not loaded" err || pyIn "could not be found" err)
    then (true, true) else (false, false)

def systemctlCmd (cfg : AConfig) (action unit : String) : List String :=
  [cfg.sudoBin, "-n", cfg.systemctlBin, action, unit]

structure SysResult where
  ok : Bool
  ignored : Bool
  r : RunResult
deriving Repr, DecidableEq

/-- `AudioModeManager._systemctl`. -/
def systemctl (env : AEnv) (cfg : AConfig) (action unit : String)
    (tolerateMissing : Bool) (s : AState) : SysResult × AState :=
  let (r, s₁) := runCmd env (systemctlCmd cfg action unit) "12.0" s
  let (ok, ign) := systemctlAdjust r tolerateMissing
  ({ ok := ok, ignored := ign, r := r }, s₁)

structure ActiveResult where
  ok : Bool
  status : String
  stderr : String
deriving Repr, DecidableEq

/-- `AudioModeManager._systemctl_is_active`. -/
def systemctl_is_active (env : AEnv) (cfg : AConfig) (unit : String) (s : AState) :
    ActiveResult × AState :=
  let (res, s₁) := systemctl env cfg "is-active" unit true s
  let status := pyLower (pyStrip res.r.stdout)
  ({ ok := status = "active",
     status := if status ≠ "" then status else if res.ok then "unknown" else "error",
     stderr := res.r.stderr }, s₁)

def bluetoothctlCmd (cfg : AConfig) (args : List String) : List String :=
  [cfg.sudoBin, "-n", "bluetoothctl"] ++ args.filter (· ≠ "")

/-- `AudioModeManager._bluetoothctl_single`. -/
def bluetoothctl_single (env : AEnv) (cfg : AConfig) (args : List String)
    (timeoutLabel : String := "2.5") (s : AState) : RunResult × AState :=
  runCmd env (bluetoothctlCmd cfg args) timeoutLabel s

def wpctlMuteCmd (mute : Bool) : List String :=
  ["wpctl", "set-mute", "@DEFAULT_AUDIO_SINK@", if mute then "1" else "0"]

def pactlMuteCmd (mute : Bool) : List String :=
  ["pactl", "set-sink-mute", "@DEFAULT_SINK@", if mute then "1" else "0"]

/-- `AudioModeManager._set_sink_mute` (wpctl, falling back to pactl). -/
def set_sink_mute (env : AEnv) (mute : Bool) (s : AState) : RunResult × AState :=
  let (r, s₁) := runCmd env (wpctlMuteCmd mute) "5.0" s
  if r.ok then (r, s₁) else runCmd env (pactlMuteCmd mute) "5.0" s₁

def volClamp (v : Int) : Int := max 0 (min 150 v)

def wpctlVolumeCmd (pct : Int) : List String :=
  ["wpctl", "set-volume", "@DEFAULT_AUDIO_SINK@", toString pct ++ "%"]

def pactlVolumeCmd (pct : Int) : List String :=
  ["pactl", "set-sink-volume", "@DEFAULT_SINK@", toString pct ++ "%"]

/-- `AudioModeManager._set_sink_volume`. -/
def set_sink_volume (env : AEnv) (volumePct : Int) (s : AState) : RunResult × AState :=
  let pct := volClamp volumePct
  let (r, s₁) := runCmd env (wpctlVolumeCmd pct) "5.0" s
  if r.ok then (r, s₁) else runCmd env (pactlVolumeCmd pct) "5.0" s₁

def wpctlGetVolumeCmd : List String := ["wpctl", "get-volume", "@DEFAULT_AUDIO_SINK@"]
def pactlGetMuteCmd : List String := ["pactl", "get-sink-mute", "@DEFAULT_SINK@"]

/-- `AudioModeManager._audio_muted`. -/
def audio_muted (env : AEnv) (s : AState) : Option Bool × AState :=
  let (r, s₁) := runCmd env wpctlGetVolumeCmd "4.0" s
  let txt := if r.ok then r.stdout else ""
  if txt ≠ "" then (some (pyIn "[MUTED]" txt), s₁)
  else
    let (r₂, s₂) := runCmd env pactlGetMuteCmd "4.0" s₁
    let txt₂ := if r₂.ok then r₂.stdout else ""
    if txt₂ ≠ "" then (some (pyIn "yes" (pyLower txt₂)), s₂)
    else (none, s₂)

/-- Device-line parsing in `_bluetooth_connected_devices`. -/
def parseBtDevices (out : String) : List String :=
  ((pyLines out).map pyStrip).foldr
    (fun line acc =>
      if line.startsWith "Device " then
        match pySplitSpaceMax2 line with
        | [_, _, name] => pyStrip name :: acc
        | _ => acc
      else acc) []

/-- `AudioModeManager._bluetooth_connected_devices`. -/
def bluetooth_connected_devices (env : AEnv) (cfg : AConfig) (mode : String)
    (s : AState) : List String × AState :=
  if mode ≠ "bluetooth" && !cfg.alwaysQueryBt then ([], s)
  else
    let (r, s₁) := bluetoothctl_single env cfg ["devices", "Connected"] "1.5" s
    if !r.ok then ([], s₁) else (parseBtDevices r.stdout, s₁)

/-! ### Audio mode orchestrator: settings persistence -/

/-- `AudioModeManager._current_mode`. -/
def current_mode (st : List (String × String)) : String :=
  let raw := pyLower (pyStrip (get_setting st SETTING_MEDIA_MODE ""))
  if VALID_MEDIA_MODES.contains raw then raw
  else
    let g := get_setting st "av_mode" "partybox"
    let av := pyLower (pyStrip (if g = "" then "partybox" else g))
    if av = "spotify" then "spotify" else "partybox"

/-- `AudioModeManager._persist_mode`. -/
def persist_mode (mode : String) (s : AState) : AState :=
  let st₁ := set_setting s.settings SETTING_MEDIA_MODE mode
  let st₂ := set_setting st₁ "av_mode" (if mode = "spotify" then "spotify" else "partybox")
  let st₃ := set_setting st₂ "tv_paused" (if mode = "partybox" then "0" else "1")
  let st₄ := set_setting st₃ "tv_muted" (if mode = "mute" then "1" else "0")
  { s with settings := set_setting st₄ SETTING_LAST_SWITCH_TS (toString s.now) }

/-- `AudioModeManager._persist_last_error`. -/
def persist_last_error (e : String) (s : AState) : AState :=
  { s with settings := set_setting s.settings SETTING_LAST_ERROR (pyStrip e) }

/-- `AudioModeManager._persist_actions` (the JSON serialization and its
20000-character bound are modelled by storing the structured list). -/
def persist_actions (acts : List ActionEntry) (s : AState) : AState :=
  { s with lastActionsStored := acts }

/-! ### Audio mode orchestrator: status -/

def serviceStatesLoop (env : AEnv) (cfg : AConfig) :
    List String → AState → List (String × SvcState) × AState
  | [], s => ([], s)
  | u :: rest, s =>
    let (st, s₁) := systemctl_is_active env cfg u s
    let (out, s₂) := serviceStatesLoop env cfg rest s₁
    ((u, { active := st.ok, status := st.status, stderr := st.stderr }) :: out, s₂)

/-- `AudioModeManager._service_states`. -/
def service_states (env : AEnv) (cfg : AConfig) (s : AState) :
    List (String × SvcState) × AState :=
  serviceStatesLoop env cfg STATUS_UNITS s

/-- `int((v or "0").strip() or "0")` applied to a raw setting value `v`. -/
def tsChain (v : String) : Except String Int :=
  let t₁ := pyStrip (if v = "" then "0" else v)
  pyInt (if t₁ = "" then "0" else t₁)

/-- The expression `int((DB.get_setting(SETTING_LAST_SWITCH_TS, "0") or
"0").strip() or "0")` from `get_media_mode_status`. -/
def statusTsParse (st : List (String × String)) : Except String Int :=
  tsChain (get_setting st SETTING_LAST_SWITCH_TS "0")

/-- The uncached computation of `get_media_mode_status`.  The `int(...)`
parse of the persisted switch timestamp is unguarded in the source and may
raise `ValueError`, which the embedding reports as `.error`. -/
def statusFresh (env : AEnv) (cfg : AConfig) (s : AState) :
    Except String StatusPayload × AState :=
  let mode := current_mode s.settings
  let lastActions := s.lastActionsStored
  match statusTsParse s.settings with
  | .error e => (.error e, s)
  | .ok ts =>
    let lastError := pyStrip (get_setting s.settings SETTING_LAST_ERROR "")
    let (svcs, s₁) := service_states env cfg s
    let (am, s₂) := audio_muted env s₁
    let (btd, s₃) := bluetooth_connected_devices env cfg mode s₂
    let payload : StatusPayload :=
      { mode := mode, valid_modes := VALID_MEDIA_MODES, last_switch_ts := ts,
        last_error := lastError, services := svcs, audio_muted := am,
        bluetooth_connected_devices := btd,
        last_actions := lastActions.drop (lastActions.length - 20) }
    (.ok payload, { s₃ with statusCache := some payload, statusCacheTs := s₃.now })

/-- `AudioModeManager.get_media_mode_status`. -/
def get_media_mode_status (env : AEnv) (cfg : AConfig) (refresh : Bool)
    (s : AState) : Except String StatusPayload × AState :=
  match s.statusCache with
  | some c =>
    if !refresh && s.now - s.statusCacheTs < cfg.statusCacheTtl then (.ok c, s)
    else statusFresh env cfg s
  | none => statusFresh env cfg s

/-! ### Audio mode orchestrator: mode application -/

/-- Behaviour of the injected `stop_spotify_playback_cb`: either it returns
(with the truthiness of its `ok` field and an error detail) or it raises. -/
inductive CbBeh where
  | ret (ok : Bool) (err : String)
  | raiseEx (msg : String)
deriving Repr, DecidableEq

/-- Managed units outside the target mode's owning set, in iteration order
(`for unit in MANAGED_MODE_SERVICES: if unit in start_units: continue`). -/
def stopUnits (mode : String) : List String :=
  MANAGED_MODE_SERVICES.filter (fun u => !(MODE_START_SERVICES mode).contains u)

def stopLoop (env : AEnv) (cfg : AConfig) :
    List String → AState → List ActionEntry → List ActionEntry × AState
  | [], s, acts => (acts, s)
  | u :: rest, s, acts =>
    let (res, s₁) := systemctl env cfg "stop" u true s
    stopLoop env cfg rest s₁ (acts ++ [.stop u res.ok res.ignored res.r])

def startLoop (env : AEnv) (cfg : AConfig) :
    List String → AState → List ActionEntry →
    Except String Unit × List ActionEntry × AState
  | [], s, acts => (.ok (), acts, s)
  | u :: rest, s, acts =>
    let (res, s₁) := systemctl env cfg "start" u false s
    let acts₁ := acts ++ [.start u res.ok res.ignored res.r]
    if res.ok then startLoop env cfg rest s₁ acts₁
    else
      let d := if res.r.stderr ≠ "" then res.r.stderr else res.r.stdout
      (.error ("failed to start " ++ u ++ ": " ++ d), acts₁, s₁)

def btLoop (env : AEnv) (cfg : AConfig) :
    List (List String) → AState → List ActionEntry → List ActionEntry × AState
  | [], s, acts => (acts, s)
  | args :: rest, s, acts =>
    let (r, s₁) := bluetoothctl_single env cfg args "2.5" s
    btLoop env cfg rest s₁ (acts ++ [.bt args r.ok r])

def verifyLoop (env : AEnv) (cfg : AConfig) :
    List String → AState → List ActionEntry →
    Except String Unit × List ActionEntry × AState
  | [], s, acts => (.ok (), acts, s)
  | u :: rest, s, acts =>
    let (st, s₁) := systemctl_is_active env cfg u s
    let acts₁ := acts ++ [.verify u st.ok st.status st.stderr]
    if st.ok then verifyLoop env cfg rest s₁ acts₁
    else (.error (u ++ " is not active after start (" ++ st.status ++ ")"), acts₁, s₁)

def btSetupSteps (cfg : AConfig) : List (List String) :=
  [["power", "on"], ["pairable", "on"], ["discoverable", "on"],
   ["system-alias", cfg.btAlias]]

/-- The best-effort `stop_spotify_playback_cb` invocation at the top of
`_apply_mode`: the callback runs whenever the **target** mode is not
`"spotify"` and a callback is supplied; a raised exception is caught and
logged, never propagated. -/
def pauseStage (mode : String) (cb : Option CbBeh) (s : AState)
    (acts : List ActionEntry) : List ActionEntry × AState :=
  if mode ≠ "spotify" then
    match cb with
    | some (.ret ok err) =>
      (acts ++ [.pauseAttempt ok err], { s with pauseCalls := s.pauseCalls + 1 })
    | some (.raiseEx m) =>
      (acts ++ [.pauseAttempt false m], { s with pauseCalls := s.pauseCalls + 1 })
    | none => (acts, s)
  else (acts, s)

/-- The Bluetooth pairable/discoverable teardown when leaving mode
`"bluetooth"`. -/
def btTeardownStage (env : AEnv) (cfg : AConfig) (previousMode mode : String)
    (s : AState) (acts : List ActionEntry) : List ActionEntry × AState :=
  if previousMode = "bluetooth" && mode ≠ "bluetooth" then
    let (r₁, s₁) := bluetoothctl_single env cfg ["pairable", "off"] "2.5" s
    let (r₂, s₂) := bluetoothctl_single env cfg ["discoverable", "off"] "2.5" s₁
    (acts ++ [.bt ["pairable", "off"] r₁.ok r₁,
              .bt ["discoverable", "off"] r₂.ok r₂], s₂)
  else (acts, s)

/-- The audio-routing step shared by `_apply_mode` and
`_ensure_mode_active`: mute + safe volume for `"mute"`, unmute otherwise. -/
def audioStage (env : AEnv) (mode : String) (s : AState)
    (acts : List ActionEntry) : List ActionEntry × AState :=
  if mode = "mute" then
    let (r₁, s₁) := set_sink_mute env true s
    let (r₂, s₂) := set_sink_volume env 35 s₁
    (acts ++ [.sinkMute true r₁.ok r₁, .sinkVolume 35 r₂.ok r₂], s₂)
  else
    let (r₁, s₁) := set_sink_mute env false s
    (acts ++ [.sinkMute false r₁.ok r₁], s₁)

/-- The Bluetooth power/pairable/discoverable/alias setup when entering mode
`"bluetooth"`. -/
def btSetupStage (env : AEnv) (cfg : AConfig) (mode : String) (s : AState)
    (acts : List ActionEntry) : List ActionEntry × AState :=
  if mode = "bluetooth" then btLoop env cfg (btSetupSteps cfg) s acts
  else (acts, s)

/-- `AudioModeManager._apply_mode`.  The ghost `applyLog` records each
invocation as `(mode, previous_mode)`; `pauseCalls` counts callback calls. -/
def apply_mode (env : AEnv) (cfg : AConfig) (mode previousMode : String)
    (cb : Option CbBeh) (s : AState) (acts : List ActionEntry) :
    Except String Unit × List ActionEntry × AState :=
  let s := { s with applyLog := s.applyLog ++ [(mode, previousMode)] }
  if !(VALID_MEDIA_MODES.contains mode) then
    (.error ("invalid media mode: " ++ mode), acts, s)
  else
    let (acts, s) := pauseStage mode cb s acts
    let (acts, s) := stopLoop env cfg (stopUnits mode) s acts
    let (acts, s) := btTeardownStage env cfg previousMode mode s acts
    let (acts, s) := audioStage env mode s acts
    match startLoop env cfg (MODE_START_SERVICES mode) s acts with
    | (.error e, acts, s) => (.error e, acts, s)
    | (.ok _, acts, s) =>
      let (acts, s) := btSetupStage env cfg mode s acts
      verifyLoop env cfg (MODE_START_SERVICES mode) s acts

/-- `AudioModeManager._ensure_mode_active`. -/
def ensure_mode_active (env : AEnv) (cfg : AConfig) (mode : String) (s : AState)
    (acts : List ActionEntry) : Except String Unit × List ActionEntry × AState :=
  let (acts, s) := audioStage env mode s acts
  match startLoop env cfg (MODE_START_SERVICES mode) s acts with
  | (.error e, acts, s) => (.error e, acts, s)
  | (.ok _, acts, s) =>
    let (acts, s) := btSetupStage env cfg mode s acts
    verifyLoop env cfg (MODE_START_SERVICES mode) s acts

/-! ### Audio mode orchestrator: public operations -/

/-- The structured result of `set_media_mode` (Python returns a dict with
keys `ok`, optional `error`, `mode`, `status`). -/
structure SetOutcome where
  ok : Bool
  error : Option String := none
  mode : String
  status : StatusPayload
deriving Repr, DecidableEq

/-- The full **switch** branch of `set_media_mode` (reached when the current
mode differs from the valid target): apply the target mode, and on failure
attempt exactly one best-effort fallback to `"mute"` unless the target
already was `"mute"`. -/
def switchPath (env : AEnv) (cfg : AConfig) (target current : String)
    (cb : Option CbBeh) (s : AState) : Except String SetOutcome × AState :=
  let s₁ := persist_last_error "" s
  match apply_mode env cfg target current cb s₁ [] with
  | (.ok _, acts, s₂) =>
    let s₃ := persist_last_error "" (persist_actions acts (persist_mode target s₂))
    let s₄ := { s₃ with statusCacheTs := 0 }
    match get_media_mode_status env cfg true s₄ with
    | (.error e, s₅) => (.error e, s₅)
    | (.ok p, s₅) => (.ok { ok := true, mode := target, status := p }, s₅)
  | (.error e, acts, s₂) =>
    let acts₁ := acts ++ [.switchError e]
    let fb :=
      if target ≠ "mute" then
        match apply_mode env cfg "mute" target none s₂ acts₁ with
        | (.ok _, acts₂, s₃) => (e, acts₂, true, persist_mode "mute" s₃)
        | (.error e₂, acts₂, s₃) =>
          (e ++ "; fallback_to_mute_failed=" ++ e₂,
           acts₂ ++ [.fallbackError e₂], false, s₃)
      else (e, acts₁, false, s₂)
    match fb with
    | (err, actsF, fallbackOk, sF) =>
      let s₄ := { persist_last_error err (persist_actions actsF sF) with
                  statusCacheTs := 0 }
      match get_media_mode_status env cfg true s₄ with
      | (.error e₂, s₅) => (.error e₂, s₅)
      | (.ok p, s₅) =>
        (.ok { ok := false, error := some err,
               mode := if fallbackOk then "mute" else current_mode s₄.settings,
               status := p }, s₅)

/-- `AudioModeManager.set_media_mode`.  The outer `Except` carries a Python
exception escaping the method (possible only through the unguarded
`int(...)` in `get_media_mode_status`). -/
def set_media_mode (env : AEnv) (cfg : AConfig) (mode : String)
    (cb : Option CbBeh) (force : Bool) (s : AState) :
    Except String SetOutcome × AState :=
  let target := pyLower (pyStrip mode)
  if !(VALID_MEDIA_MODES.contains target) then
    match get_media_mode_status env cfg true s with
    | (.error e, s₁) => (.error e, s₁)
    | (.ok p, s₁) =>
      (.ok { ok := false, error := some "bad mode", mode := current_mode s.settings,
             status := p }, s₁)
  else
    let current := current_mode s.settings
    if current = target && !force then
      let s₁ := persist_last_error "" s
      match get_media_mode_status env cfg true s₁ with
      | (.error e, s₂) => (.error e, s₂)
      | (.ok p, s₂) =>
        (.ok { ok := true, mode := current, status := { p with noop := true } }, s₂)
    else if current = target && force then
      let s₁ := persist_last_error "" s
      match ensure_mode_active env cfg target s₁ [] with
      | (.ok _, acts, s₂) =>
        let s₃ := persist_last_error "" (persist_actions acts (persist_mode target s₂))
        let s₄ := { s₃ with statusCacheTs := 0 }
        match get_media_mode_status env cfg true s₄ with
        | (.error e, s₅) => (.error e, s₅)
        | (.ok p, s₅) =>
          (.ok { ok := true, mode := target, status := { p with ensured := true } }, s₅)
      | (.error e, acts, s₂) =>
        let s₃ := persist_last_error e (persist_actions (acts ++ [.ensureError e]) s₂)
        let s₄ := { s₃ with statusCacheTs := 0 }
        match get_media_mode_status env cfg true s₄ with
        | (.error e₂, s₅) => (.error e₂, s₅)
        | (.ok p, s₅) =>
          (.ok { ok := false, error := some e, mode := current_mode s₄.settings,
                 status := p }, s₅)
    else switchPath env cfg target current cb s

/-- Result of `make_bluetooth_discoverable`. -/
structure DiscOutcome where
  ok : Bool
  error : Option String := none
  seconds : Option Int := none
  status : StatusPayload
deriving Repr, DecidableEq

/-- `AudioModeManager.make_bluetooth_discoverable`. -/
def make_bluetooth_discoverable (env : AEnv) (cfg : AConfig) (seconds : Int)
    (s : AState) : Except String DiscOutcome × AState :=
  let duration := max 30 (min 1800 (if seconds = 0 then 300 else seconds))
  match startLoop env cfg ["bluetooth.service", "partybox-bluetooth.service"] s [] with
  | (.error msg, acts, s₁) =>
    let s₂ := persist_actions acts (persist_last_error msg s₁)
    match get_media_mode_status env cfg true s₂ with
    | (.error e, s₃) => (.error e, s₃)
    | (.ok p, s₃) => (.ok { ok := false, error := some msg, status := p }, s₃)
  | (.ok _, acts, s₁) =>
    let (acts₂, s₂) := btLoop env cfg
      [["power", "on"], ["pairable", "on"],
       ["discoverable-timeout", toString duration], ["discoverable", "on"],
       ["system-alias", cfg.btAlias]] s₁ acts
    let s₃ := persist_actions acts₂ { s₂ with statusCacheTs := 0 }
    match get_media_mode_status env cfg true s₃ with
    | (.error e, s₄) => (.error e, s₄)
    | (.ok p, s₄) => (.ok { ok := true, seconds := some duration, status := p }, s₄)

/-! ### Derived command abbreviations used by the statements -/

def pairableOffCmd (cfg : AConfig) : List String :=
  bluetoothctlCmd cfg ["pairable", "off"]

def discoverableOffCmd (cfg : AConfig) : List String :=
  bluetoothctlCmd cfg ["discoverable", "off"]

def btDevicesCmd (cfg : AConfig) : List String :=
  bluetoothctlCmd cfg ["devices", "Connected"]

/-- The read-only commands a status refresh may issue: per-unit
`is-active` queries, the mute/volume readbacks, and the connected-device
listing.  None of them stops or starts a service, none changes Bluetooth or
mixer state. -/
def statusQueryCmds (cfg : AConfig) : List (List String) :=
  STATUS_UNITS.map (systemctlCmd cfg "is-active") ++
  [wpctlGetVolumeCmd, pactlGetMuteCmd, btDevicesCmd cfg]

/-- `CmdOK allowed s s'`: the step from `s` to `s'` only issued commands
from `allowed`, and left the settings store, the persisted action log, the
ghost apply/pause instrumentation and the clock untouched. -/
def CmdOK (allowed : List (List String)) (s s' : AState) : Prop :=
  s'.settings = s.settings ∧ s'.applyLog = s.applyLog ∧
  s'.lastActionsStored = s.lastActionsStored ∧ s'.pauseCalls = s.pauseCalls ∧
  s'.now = s.now ∧ ∃ δ, s'.trace = s.trace ++ δ ∧ ∀ c ∈ δ, c ∈ allowed

/-- Number of pause-callback invocations `_apply_mode` performs. -/
def pauseCount (mode : String) (cb : Option CbBeh) : Nat :=
  if mode ≠ "spotify" && cb.isSome then 1 else 0

/-- The action-log entries the pause step appends. -/
def pauseActs (mode : String) (cb : Option CbBeh) : List ActionEntry :=
  if mode ≠ "spotify" then
    match cb with
    | some (.ret ok err) => [.pauseAttempt ok err]
    | some (.raiseEx m) => [.pauseAttempt false m]
    | none => []
  else []

/-- The persisted timestamp parses, i.e. `get_media_mode_status` does not
raise (true of every value this component itself writes). -/
def TsParses (st : List (String × String)) : Prop :=
  ∃ n, statusTsParse st = .ok n

/-! ### Spotify streaming resilience client: data model -/

structure SpDevice where
  name : String := ""
  id : String := ""
  volume_percent : Int := 0
deriving Repr, DecidableEq

structure SpTrack where
  name : String := ""
  artists : List String := []
  album : String := ""
  duration_ms : Int := 0
  id : String := ""
deriving Repr, DecidableEq

structure SpImages where
  small : String := ""
  medium : String := ""
  large : String := ""
deriving Repr, DecidableEq

/-- One playback snapshot dict.  Optional dict keys are `Option` fields. -/
structure Snapshot where
  ok : Bool
  state : String
  spotify_on_partybox : Bool := false
  device : SpDevice := {}
  track : SpTrack := {}
  progress_ms : Int := 0
  images : SpImages := {}
  shuffle_state : Bool := false
  repeat_state : String := "off"
  ts : Nat
  error : Option String := none
  account : Option String := none
  cooldown_remaining_s : Option Nat := none
  cached : Bool := false
  last_fetch_age_s : Option Nat := none
deriving Repr, DecidableEq

structure PImage where
  url : String := ""
  width : Int := 0
deriving Repr, DecidableEq

structure PItem where
  name : String := ""
  artists : List String := []
  album : String := ""
  albumImages : Option (List PImage) := none
  duration_ms : Int := 0
  id : String := ""
deriving Repr, DecidableEq

structure PDevice where
  name : String := ""
  id : String := ""
  volume_percent : Int := 0
deriving Repr, DecidableEq

structure PlayerPayload where
  device : Option PDevice := none
  item : Option PItem := none
  is_playing : Bool := false
  progress_ms : Int := 0
  shuffle_state : Bool := false
  repeat_state : String := ""
deriving Repr, DecidableEq

structure TokenPayload where
  access_token : String := ""
  expires_in : Int := 0
  error_description : String := ""
  error : String := ""
deriving Repr, DecidableEq

/-- A parsed JSON body, as the different endpoints read it (`.get` on a
missing key yields the falsy default, modelled by the catch-all accessors). -/
inductive SpPayload where
  | token (t : TokenPayload)
  | me (display_name : String)
  | player (p : PlayerPayload)
deriving Repr, DecidableEq

def SpPayload.accessToken : SpPayload → String
  | .token t => t.access_token
  | _ => ""

def SpPayload.expiresIn : SpPayload → Int
  | .token t => if t.expires_in = 0 then 3600 else t.expires_in
  | _ => 3600

def SpPayload.errDetail : SpPayload → String
  | .token t => pyStrip (if t.error_description ≠ "" then t.error_description else t.error)
  | _ => ""

def SpPayload.displayName : SpPayload → String
  | .me d => d
  | _ => ""

def SpPayload.playerDevice : SpPayload → Option PDevice
  | .player p => p.device
  | _ => none

def SpPayload.playerItem : SpPayload → Option PItem
  | .player p => p.item
  | _ => none

def SpPayload.isPlaying : SpPayload → Bool
  | .player p => p.is_playing
  | _ => false

def SpPayload.progressMs : SpPayload → Int
  | .player p => p.progress_ms
  | _ => 0

def SpPayload.shuffleState : SpPayload → Bool
  | .player p => p.shuffle_state
  | _ => false

def SpPayload.repeatState : SpPayload → String
  | .player p => if p.repeat_state = "" then "off" else p.repeat_state
  | _ => "off"

/-- What `_http_json` yields for one HTTP round trip: status code, parsed
body (`none` for empty/invalid JSON), error string, raw `Retry-After`
header value (`""` when absent). -/
structure HttpOutcome where
  status : Nat
  payload : Option SpPayload := none
  err : String := ""
  retryAfterRaw : String := ""
deriving Repr, DecidableEq

/-- Environment: outcome of the n-th HTTP call issued by the client. -/
abbrev HEnv := Nat → HttpOutcome

/-- Constructor arguments of `SpotifyClient.__init__`, already trimmed. -/
structure SpConfig where
  client_id : String := ""
  client_secret : String := ""
  refresh_token : String := ""
  device_name : String := "PartyBox"
  device_id : String := ""
  cache_seconds : Nat := 15
  backoffDefault : Nat := 30
  backoffMax : Nat := 300
deriving Repr, DecidableEq

/-- `self.enabled`. -/
def SpConfig.enabled (c : SpConfig) : Bool :=
  pyStrip c.client_id ≠ "" && pyStrip c.client_secret ≠ "" &&
  pyStrip c.refresh_token ≠ ""

/-- Mutable state of `SpotifyClient`; `now` is the frozen `time.time()`;
`httpCalls`/`httpTrace` are ghost instrumentation of live HTTP fetches. -/
structure SpState where
  access_token : String := ""
  access_token_expires_at : Nat := 0
  cache_state : Option Snapshot := none
  cache_ts : Nat := 0
  last_fetch_ts : Nat := 0
  me_cache : Option SpPayload := none
  me_cache_ts : Nat := 0
  cooldown_until : Nat := 0
  cooldown_reason : String := ""
  now : Nat := 0
  httpCalls : Nat := 0
  httpTrace : List String := []
deriving Repr, DecidableEq

/-! ### Spotify client: helpers -/

/-- `SpotifyClient._cooldown_remaining`. -/
def cooldown_remaining (s : SpState) : Nat := s.cooldown_until - s.now

/-- `SpotifyClient._metrics` combined with `_decorate`: copy the payload and
overwrite the `cached`, `last_fetch_age_s` and `cooldown_remaining_s` keys. -/
def decorate (s : SpState) (payload : Snapshot) (cached : Bool) : Snapshot :=
  { payload with
    cached := cached,
    last_fetch_age_s := if s.last_fetch_ts > 0 then some (s.now - s.last_fetch_ts) else none,
    cooldown_remaining_s := some (cooldown_remaining s) }

/-- `SpotifyClient._empty_state`. -/
def empty_state (now : Nat) (ok : Bool) (state : String) (error : String := "") :
    Snapshot :=
  { ok := ok, state := state, ts := now,
    error := if error ≠ "" then some error else none }

/-- Issue one HTTP call: consume the next `HttpOutcome` and record the
endpoint in the ghost trace. -/
def httpCall (env : HEnv) (endpoint : String) (s : SpState) : HttpOutcome × SpState :=
  (env s.httpCalls,
   { s with httpCalls := s.httpCalls + 1, httpTrace := s.httpTrace ++ [endpoint] })

/-- `SpotifyClient._parse_retry_after`. -/
def parse_retry_after (raw : String) : Nat :=
  let ra := pyStrip raw
  if ra ≠ "" && ra.data.all Char.isDigit then
    ra.data.foldl (fun acc c => acc * 10 + (c.toNat - 48)) 0
  else 0

/-- `SpotifyClient._enter_cooldown`: returns the wait and the new state. -/
def enter_cooldown (cfg : SpConfig) (retryAfter : Nat) (s : SpState) :
    Nat × SpState :=
  let wait₀ := if retryAfter > 0 then retryAfter else cfg.backoffDefault
  let wait₁ := max 5 wait₀
  let wait := min wait₁ (max 5 cfg.backoffMax)
  let w := toString wait
  (wait, { s with cooldown_until := s.now + wait,
                  cooldown_reason := s!"Too Many Requests (retry in {w}s)" })

/-- `SpotifyClient._refresh_access_token`. -/
def refresh_access_token (env : HEnv) (cfg : SpConfig) (s : SpState) :
    (Bool × String) × SpState :=
  if !cfg.enabled then ((false, "spotify_not_configured"), s)
  else
    let (o, s₁) := httpCall env "token" s
    if o.status ≠ 200 || o.payload = none then
      let detail := match o.payload with
        | some p => p.errDetail
        | none => ""
      if detail ≠ "" then ((false, detail), s₁)
      else
        let st := toString o.status
        ((false, if o.err ≠ "" then o.err else s!"token_refresh_status_{st}"), s₁)
    else
      let p := o.payload.getD (.token {})
      let token := p.accessToken
      if token = "" then ((false, "token_missing"), s₁)
      else
        ((true, ""),
         { s₁ with access_token := token,
                   access_token_expires_at := s₁.now + (max 30 (p.expiresIn - 30)).toNat })

/-- `SpotifyClient._get_access_token`. -/
def get_access_token (env : HEnv) (cfg : SpConfig) (s : SpState) :
    (Option String × String) × SpState :=
  if s.access_token ≠ "" && s.now < s.access_token_expires_at then
    ((some s.access_token, ""), s)
  else
    match refresh_access_token env cfg s with
    | ((false, err), s₁) => ((none, err), s₁)
    | ((true, _), s₁) => ((some s₁.access_token, ""), s₁)

/-- `SpotifyClient._api_get`.  Result mirrors `(status, payload, err)`. -/
def api_get (env : HEnv) (cfg : SpConfig) (path : String) (retry401 : Bool)
    (s : SpState) : (Nat × Option SpPayload × String) × SpState :=
  let remaining := cooldown_remaining s
  if remaining > 0 then
    let rS := toString remaining
    ((429, none,
      if s.cooldown_reason ≠ "" then s.cooldown_reason
      else s!"Too Many Requests (retry in {rS}s)"), s)
  else
    match get_access_token env cfg s with
    | ((none, err), s₁) =>
      ((0, none, if err ≠ "" then err else "token_unavailable"), s₁)
    | ((some _, _), s₁) =>
      let (o, s₂) := httpCall env path s₁
      let ra := parse_retry_after o.retryAfterRaw
      let (reqErr, s₃) :=
        if o.status = 429 then
          let (_, s') := enter_cooldown cfg ra s₂
          (s'.cooldown_reason, s')
        else (o.err, s₂)
      if o.status = 401 && retry401 then
        let s₄ := { s₃ with access_token := "", access_token_expires_at := 0 }
        match get_access_token env cfg s₄ with
        | ((none, err₂), s₅) =>
          ((401, none, if err₂ ≠ "" then err₂ else "token_refresh_failed"), s₅)
        | ((some _, _), s₅) =>
          let (o₂, s₆) := httpCall env path s₅
          let ra₂ := parse_retry_after o₂.retryAfterRaw
          let (reqErr₂, s₇) :=
            if o₂.status = 429 then
              let (_, s') := enter_cooldown cfg ra₂ s₆
              (s'.cooldown_reason, s')
            else (o₂.err, s₆)
          ((o₂.status, o₂.payload, reqErr₂), s₇)
      else ((o.status, o.payload, reqErr), s₃)

/-- `SpotifyClient._get_me` (caches the raw payload for 300 seconds;
returns the stale cache when the refetch fails). -/
def get_me (env : HEnv) (cfg : SpConfig) (s : SpState) :
    Option SpPayload × SpState :=
  if s.me_cache.isSome && s.now - s.me_cache_ts < 300 then (s.me_cache, s)
  else
    let ((st, pay, _), s₁) := api_get env cfg "/me" true s
    if st = 200 && pay.isSome then
      (pay, { s₁ with me_cache := pay, me_cache_ts := s₁.now })
    else (s₁.me_cache, s₁)

/-- Drop a run of `s` characters (part of the literal `\\s+` regex below). -/
def dropSRun : List Char → List Char
  | [] => []
  | c :: rest => if c = 's' then dropSRun rest else c :: rest

/-- `re.sub(r"\\s+", " ", ...)` from `_normalize_name`.  Note the pattern in
the source is a raw string containing a double backslash, so it matches a
literal backslash followed by one or more letters `s`, not whitespace. -/
def subBackslashS : List Char → List Char
  | [] => []
  | [c] => [c]
  | c :: d :: rest =>
    if c = '\\' && d = 's' then ' ' :: subBackslashS (dropSRun rest)
    else c :: subBackslashS (d :: rest)
termination_by l => l.length
decreasing_by
  · have h : ∀ l : List Char, (dropSRun l).length ≤ l.length := by
      intro l
      induction l with
      | nil => simp [dropSRun]
      | cons c rest ih =>
        simp only [dropSRun]
        split
        · exact Nat.le_succ_of_le ih
        · simp
    exact Nat.lt_succ_of_le (Nat.le_succ_of_le (h rest))
  · simp

/-- `SpotifyClient._normalize_name`. -/
def normalize_name (name : String) : String :=
  pyLower (String.mk (subBackslashS (pyStrip name).data))

def SpConfig.deviceNameEff (c : SpConfig) : String :=
  pyStrip (if c.device_name = "" then "PartyBox" else c.device_name)

def SpConfig.deviceIdEff (c : SpConfig) : String := pyStrip c.device_id

/-- `SpotifyClient._device_matches`. -/
def device_matches (cfg : SpConfig) (deviceName deviceId : String) : Bool :=
  if cfg.deviceIdEff ≠ "" then pyStrip deviceId = cfg.deviceIdEff
  else normalize_name deviceName = normalize_name cfg.deviceNameEff

/-- Stable insertion keeping equal widths in their original order. -/
def insertByWidth (x : PImage) : List PImage → List PImage
  | [] => [x]
  | y :: rest =>
    if y.width ≤ x.width then y :: insertByWidth x rest else x :: y :: rest

/-- Stable ascending sort by image width (Python `sorted` with `key=width`). -/
def sortByWidth (l : List PImage) : List PImage :=
  l.foldl (fun acc x => insertByWidth x acc) []

/-- `SpotifyClient._pick_images`. -/
def pick_images (item : Option PItem) : SpImages :=
  match item with
  | none => {}
  | some it =>
    match it.albumImages with
    | none => {}
    | some images =>
      let sorted := sortByWidth (images.filter (fun im => im.url ≠ ""))
      match sorted with
      | [] => {}
      | _ =>
        { small := ((sorted.get? 0).getD {}).url,
          medium := ((sorted.get? (sorted.length / 2)).getD {}).url,
          large := (sorted.getLast?.getD {}).url }

def acctAdd (me : Option SpPayload) (out : Snapshot) : Snapshot :=
  match me with
  | some p => if p.displayName ≠ "" then { out with account := some p.displayName } else out
  | none => out

/-- The tail of `_fetch_live_state` once a 200 payload is in hand. -/
def finishPlayer (cfg : SpConfig) (me : Option SpPayload)
    (payl : Option SpPayload) (s : SpState) : Snapshot × SpState :=
  match payl with
  | none => (empty_state s.now false "error" "invalid_player_payload", s)
  | some p =>
    let device := p.playerDevice
    let deviceName := (device.getD {}).name
    let deviceId := (device.getD {}).id
    if deviceName = "" && deviceId = "" then
      (acctAdd me (empty_state s.now true "inactive"), s)
    else
      let it := p.playerItem.getD {}
      (acctAdd me
        { ok := true,
          state := if p.isPlaying then "playing" else "paused",
          spotify_on_partybox := device_matches cfg deviceName deviceId,
          device := { name := deviceName, id := deviceId,
                      volume_percent := (device.getD {}).volume_percent },
          track := { name := it.name, artists := it.artists.filter (· ≠ ""),
                     album := it.album, duration_ms := it.duration_ms, id := it.id },
          progress_ms := p.progressMs, images := pick_images p.playerItem,
          shuffle_state := p.shuffleState, repeat_state := p.repeatState,
          ts := s.now }, s)

/-- `SpotifyClient._fetch_live_state`. -/
def fetch_live_state (env : HEnv) (cfg : SpConfig) (s : SpState) :
    Snapshot × SpState :=
  let (me, s₁) := get_me env cfg s
  let ((st, payl, err), s₂) := api_get env cfg "/me/player" true s₁
  if st = 204 then (acctAdd me (empty_state s₂.now true "inactive"), s₂)
  else if st = 429 then
    let out := empty_state s₂.now false "cooldown"
      (if err ≠ "" then err else "Too Many Requests")
    ({ acctAdd me out with cooldown_remaining_s := some (cooldown_remaining s₂) }, s₂)
  else if st ≠ 200 then
    let ((st₂, payl₂, err₂), s₃) :=
      api_get env cfg "/me/player/currently-playing" true s₂
    if st₂ = 204 then (acctAdd me (empty_state s₃.now true "inactive"), s₃)
    else if st₂ = 429 then
      let out := empty_state s₃.now false "cooldown"
        (if err₂ ≠ "" then err₂ else "Too Many Requests")
      ({ acctAdd me out with cooldown_remaining_s := some (cooldown_remaining s₃) }, s₃)
    else if st₂ ≠ 200 || payl₂ = none then
      let stS := toString st
      (empty_state s₃.now false "error"
        (if err₂ ≠ "" then err₂ else if err ≠ "" then err else s!"player_status_{stS}"),
       s₃)
    else finishPlayer cfg me payl₂ s₃
  else finishPlayer cfg me payl s₂

/-- `SpotifyClient.get_state`. -/
def get_state (env : HEnv) (cfg : SpConfig) (force allowFetch : Bool)
    (s : SpState) : Snapshot × SpState :=
  if !cfg.enabled then
    (decorate s (empty_state s.now false "disabled" "spotify_not_configured") true, s)
  else
    let remaining := cooldown_remaining s
    if remaining > 0 then
      match s.cache_state with
      | some c =>
        let errC := if s.cooldown_reason ≠ "" then some s.cooldown_reason else c.error
        let stale := { c with state := "cooldown", cooldown_remaining_s := some remaining, error := errC }
        (decorate s stale true, s)
      | none =>
        let rS := toString remaining
        (decorate s (empty_state s.now false "cooldown"
          (if s.cooldown_reason ≠ "" then s.cooldown_reason
           else s!"Too Many Requests (retry in {rS}s)")) true, s)
    else if !allowFetch then
      match s.cache_state with
      | some c => (decorate s c true, s)
      | none => (decorate s (empty_state s.now true "idle") true, s)
    else if !force && s.cache_state.isSome && s.now - s.cache_ts < cfg.cache_seconds then
      (decorate s (s.cache_state.getD (empty_state s.now true "idle")) true, s)
    else
      let (st, s₁) := fetch_live_state env cfg s
      let s₂ := { s₁ with last_fetch_ts := s.now }
      if !st.ok && s₂.cache_state.isSome then
        let c := s₂.cache_state.getD st
        let errF := match st.error with
          | some e => if e ≠ "" then some e else c.error
          | none => c.error
        let stale := { c with
          state := if cooldown_remaining s₂ > 0 then "cooldown"
                   else if st.state = "" then "error" else st.state,
          error := errF }
        let s₃ := { s₂ with cache_state := some stale, cache_ts := s.now }
        (decorate s₃ stale true, s₃)
      else
        let s₃ := { s₂ with cache_state := some st, cache_ts := s.now }
        (decorate s₃ st false, s₃)

/-- The cache-owning fields of the client state: `cache_state` and
`cache_ts`.  `SpFrame s s'` says a step from `s` to `s'` left them
untouched. -/
def SpFrame (s s' : SpState) : Prop :=
  s'.cache_state = s.cache_state ∧ s'.cache_ts = s.cache_ts

/-- The stale snapshot `get_state` builds from the cached one when a live
fetch fails while a cache exists (`s₂` is the post-fetch state): the cached
payload with only `state` and `error` overwritten. -/
def staleOf (st : Snapshot) (s₂ : SpState) : Snapshot :=
  let c := s₂.cache_state.getD st
  { c with
    state := if cooldown_remaining s₂ > 0 then "cooldown"
             else if st.state = "" then "error" else st.state,
    error := match st.error with
      | some e => if e ≠ "" then some e else c.error
      | none => c.error }

/-! ### Successful-call predicate and concrete fixtures used by witnesses -/

/-- The call to `set_media_mode` returned a structured result whose `ok`
field is `true`: a "successful switch" in the sense of the spec. -/
def outOk : Except String SetOutcome → Bool
  | .ok o => o.ok
  | .error _ => false

def envC3 : AEnv := fun _ => .completed 0 "active" "" 1

def sC3 : AState :=
  { settings := [("media_mode", "partybox"), ("media_mode_last_switch_ts", "0")],
    now := 100 }

def envC2 : AEnv := fun _ => .completed 0 "active" "" 1

def sC2 : AState :=
  { settings := [("media_mode", "partybox"), ("media_mode_last_switch_ts", "0")],
    now := 100 }

def envC6 : AEnv := fun _ => .completed 0 "active" "" 1

def sC6 : AState :=
  { settings := [("media_mode", "bluetooth"), ("media_mode_last_switch_ts", "0")],
    now := 100 }

/-- Environment for the C1 witness: the `systemctl start librespot.service`
command — the fifth external command of a partybox→spotify switch — fails,
everything else succeeds. -/
def envC1 : AEnv := fun n =>
  if n = 4 then .completed 1 "" "start failed badly" 1
  else .completed 0 "active" "" 1

def sC1 : AState :=
  { settings := [("media_mode", "partybox"), ("media_mode_last_switch_ts", "0")],
    now := 100 }

def envC7 : AEnv := fun _ => .completed 0 "active" "" 1

def sC7 : AState :=
  { settings := [("media_mode", "mute"), ("media_mode_last_switch_ts", "0")],
    now := 100 }

/-- **Spec-side definition**, written from the words of claim C7 rather
than from the code: a mode "actively streams audio" when it is the Spotify
streaming mode — the only backend with a live remote session a pause
callback could stop. -/
def specActivelyStreamsAudio (mode : String) : Bool := mode = "spotify"

def cfgC4 : SpConfig :=
  { client_id := "id", client_secret := "sec", refresh_token := "tok" }

def envC4 : HEnv := fun _ => { status := 500 }

def snapC4 : Snapshot :=
  { ok := true, state := "playing", ts := 10,
    track := { name := "Song A" }, device := { name := "PartyBox" } }

def sC4 : SpState :=
  { cache_state := some snapC4, cache_ts := 10, cooldown_until := 50,
    cooldown_reason := "busy", now := 20 }

def cfgC5 : SpConfig :=
  { client_id := "id", client_secret := "sec", refresh_token := "tok" }

def envC5 : HEnv := fun _ => { status := 500 }

def snapC5 : Snapshot :=
  { ok := true, state := "playing", ts := 10,
    track := { name := "Song A" }, device := { name := "PartyBox" } }

def sC5 : SpState :=
  { access_token := "tok", access_token_expires_at := 900,
    cache_state := some snapC5, cache_ts := 0, now := 100 }

def cfgC8 : SpConfig :=
  { client_id := "id", client_secret := "sec", refresh_token := "tok" }

def envC8 : HEnv := fun _ => { status := 500 }

def snapC8 : Snapshot :=
  { ok := true, state := "playing", ts := 10,
    track := { name := "Song B" }, device := { name := "PartyBox" } }

def sC8 : SpState :=
  { access_token := "tok", access_token_expires_at := 900,
    cache_state := some snapC8, cache_ts := 0, now := 100 }

/-! ### Lemma layer: command accounting -/

theorem cmdOK_refl (allowed : List (List String)) (s : AState) : CmdOK allowed s s :=
  ⟨rfl, rfl, rfl, rfl, rfl, [], by simp, by simp⟩

theorem cmdOK_trans {a : List (List String)} {s s₁ s₂ : AState}
    (h₁ : CmdOK a s s₁) (h₂ : CmdOK a s₁ s₂) : CmdOK a s s₂ := by
  obtain ⟨e₁, e₂, e₃, e₄, e₅, δ₁, ht₁, hp₁⟩ := h₁
  obtain ⟨f₁, f₂, f₃, f₄, f₅, δ₂, ht₂, hp₂⟩ := h₂
  refine ⟨by rw [f₁, e₁], by rw [f₂, e₂], by rw [f₃, e₃], by rw [f₄, e₄],
          by rw [f₅, e₅], δ₁ ++ δ₂, by rw [ht₂, ht₁, List.append_assoc], ?_⟩
  intro c hc
  rcases List.mem_append.mp hc with h | h
  · exact hp₁ c h
  · exact hp₂ c h

theorem cmdOK_mono {a b : List (List String)} {s s' : AState}
    (hsub : ∀ c ∈ a, c ∈ b) (h : CmdOK a s s') : CmdOK b s s' := by
  obtain ⟨e₁, e₂, e₃, e₄, e₅, δ, ht, hp⟩ := h
  exact ⟨e₁, e₂, e₃, e₄, e₅, δ, ht, fun c hc => hsub c (hp c hc)⟩

theorem cmdOK_mem {a : List (List String)} {s s' : AState} {c : List String}
    (h : CmdOK a s s') (hc : c ∈ s.trace) : c ∈ s'.trace := by
  obtain ⟨-, -, -, -, -, δ, ht, -⟩ := h
  rw [ht]; exact List.mem_append_left δ hc

theorem cmdOK_count {a : List (List String)} {s s' : AState} {c : List String}
    (h : CmdOK a s s') (hc : c ∉ a) : s'.trace.count c = s.trace.count c := by
  obtain ⟨-, -, -, -, -, δ, ht, hp⟩ := h
  rw [ht, List.count_append]
  have : δ.count c = 0 := by
    apply List.count_eq_zero.mpr
    intro hmem
    exact hc (hp c hmem)
  omega

theorem runCmd_snd (env : AEnv) (c : List String) (t : String) (s : AState) :
    (runCmd env c t s).2 = { s with calls := s.calls + 1, trace := s.trace ++ [c] } := rfl

theorem runCmd_cmdOK (env : AEnv) (c : List String) (t : String) (s : AState) :
    CmdOK [c] s (runCmd env c t s).2 :=
  ⟨rfl, rfl, rfl, rfl, rfl, [c], rfl, by simp⟩

theorem systemctl_snd (env : AEnv) (cfg : AConfig) (a u : String) (tol : Bool)
    (s : AState) :
    (systemctl env cfg a u tol s).2 = (runCmd env (systemctlCmd cfg a u) "12.0" s).2 := rfl

theorem systemctl_cmdOK (env : AEnv) (cfg : AConfig) (a u : String) (tol : Bool)
    (s : AState) : CmdOK [systemctlCmd cfg a u] s (systemctl env cfg a u tol s).2 := by
  rw [systemctl_snd]; exact runCmd_cmdOK env _ "12.0" s

theorem systemctl_is_active_snd (env : AEnv) (cfg : AConfig) (u : String)
    (s : AState) :
    (systemctl_is_active env cfg u s).2 = (systemctl env cfg "is-active" u true s).2 := rfl

theorem systemctl_is_active_cmdOK (env : AEnv) (cfg : AConfig) (u : String)
    (s : AState) :
    CmdOK [systemctlCmd cfg "is-active" u] s (systemctl_is_active env cfg u s).2 := by
  rw [systemctl_is_active_snd]; exact systemctl_cmdOK env cfg "is-active" u true s

theorem bluetoothctl_single_snd (env : AEnv) (cfg : AConfig) (args : List String)
    (t : String) (s : AState) :
    (bluetoothctl_single env cfg args t s).2 = (runCmd env (bluetoothctlCmd cfg args) t s).2 := rfl

theorem bluetoothctl_single_cmdOK (env : AEnv) (cfg : AConfig)
    (args : List String) (t : String) (s : AState) :
    CmdOK [bluetoothctlCmd cfg args] s (bluetoothctl_single env cfg args t s).2 := by
  rw [bluetoothctl_single_snd]; exact runCmd_cmdOK env _ t s

theorem cmdOK_widenL {x y : List String} {s s' : AState}
    (h : CmdOK [x] s s') : CmdOK [x, y] s s' :=
  cmdOK_mono (by intro c hc; simp at hc; simp [hc]) h

theorem cmdOK_widenR {x y : List String} {s s' : AState}
    (h : CmdOK [y] s s') : CmdOK [x, y] s s' :=
  cmdOK_mono (by intro c hc; simp at hc; simp [hc]) h

theorem set_sink_mute_cmdOK (env : AEnv) (m : Bool) (s : AState) :
    CmdOK [wpctlMuteCmd m, pactlMuteCmd m] s (set_sink_mute env m s).2 := by
  have h₁ := runCmd_cmdOK env (wpctlMuteCmd m) "5.0" s
  unfold set_sink_mute
  rcases hr : runCmd env (wpctlMuteCmd m) "5.0" s with ⟨r, s₁⟩
  rw [hr] at h₁
  by_cases hok : r.ok = true
  · simpa [hok] using cmdOK_widenL h₁
  · have h₂ := runCmd_cmdOK env (pactlMuteCmd m) "5.0" s₁
    simpa [hok] using cmdOK_trans (cmdOK_widenL h₁) (cmdOK_widenR h₂)

theorem set_sink_volume_cmdOK (env : AEnv) (v : Int) (s : AState) :
    CmdOK [wpctlVolumeCmd (volClamp v), pactlVolumeCmd (volClamp v)] s
      (set_sink_volume env v s).2 := by
  have h₁ := runCmd_cmdOK env (wpctlVolumeCmd (volClamp v)) "5.0" s
  rcases hr : runCmd env (wpctlVolumeCmd (volClamp v)) "5.0" s with ⟨r, s₁⟩
  rw [hr] at h₁
  simp only [set_sink_volume, hr]
  by_cases hok : r.ok = true
  · simpa [hok] using cmdOK_widenL h₁
  · have h₂ := runCmd_cmdOK env (pactlVolumeCmd (volClamp v)) "5.0" s₁
    simpa [hok] using cmdOK_trans (cmdOK_widenL h₁) (cmdOK_widenR h₂)

theorem audio_muted_cmdOK (env : AEnv) (s : AState) :
    CmdOK [wpctlGetVolumeCmd, pactlGetMuteCmd] s (audio_muted env s).2 := by
  have h₁ := runCmd_cmdOK env wpctlGetVolumeCmd "4.0" s
  unfold audio_muted
  rcases hr : runCmd env wpctlGetVolumeCmd "4.0" s with ⟨r, s₁⟩
  rw [hr] at h₁
  by_cases htxt : (if r.ok = true then r.stdout else "") ≠ ""
  · simpa [htxt] using cmdOK_widenL h₁
  · have h₂ := runCmd_cmdOK env pactlGetMuteCmd "4.0" s₁
    rcases hr₂ : runCmd env pactlGetMuteCmd "4.0" s₁ with ⟨r₂, s₂⟩
    rw [hr₂] at h₂
    have hc := cmdOK_trans (cmdOK_widenL h₁) (cmdOK_widenR h₂)
    by_cases htxt₂ : (if r₂.ok = true then r₂.stdout else "") ≠ ""
    · simpa [htxt, hr₂, htxt₂] using hc
    · simpa [htxt, hr₂, htxt₂] using hc

theorem bluetooth_connected_devices_cmdOK (env : AEnv) (cfg : AConfig)
    (mode : String) (s : AState) :
    CmdOK [btDevicesCmd cfg] s (bluetooth_connected_devices env cfg mode s).2 := by
  have h₁ := bluetoothctl_single_cmdOK env cfg ["devices", "Connected"] "1.5" s
  rcases hr : bluetoothctl_single env cfg ["devices", "Connected"] "1.5" s with ⟨r, s₁⟩
  rw [hr] at h₁
  simp only [bluetooth_connected_devices, hr]
  by_cases hq : (mode ≠ "bluetooth" && !cfg.alwaysQueryBt) = true
  · simp only [hq, if_true]
    exact cmdOK_refl [btDevicesCmd cfg] s
  · simp only [hq, if_false, Bool.false_eq_true]
    by_cases hok : (!r.ok) = true
    · simpa [hok, btDevicesCmd] using h₁
    · simpa [hok, btDevicesCmd] using h₁

theorem cmdOK_cons_head {x : List String} {l : List (List String)} {s s' : AState}
    (h : CmdOK [x] s s') : CmdOK (x :: l) s s' :=
  cmdOK_mono (by intro c hc; simp at hc; simp [hc]) h

theorem cmdOK_cons_tail {x : List String} {l : List (List String)} {s s' : AState}
    (h : CmdOK l s s') : CmdOK (x :: l) s s' :=
  cmdOK_mono (by intro c hc; simp [hc]) h

theorem serviceStatesLoop_cmdOK (env : AEnv) (cfg : AConfig) :
    ∀ (units : List String) (s : AState),
    CmdOK (units.map (systemctlCmd cfg "is-active")) s
      (serviceStatesLoop env cfg units s).2 := by
  intro units
  induction units with
  | nil => intro s; exact cmdOK_refl _ s
  | cons u rest ih =>
    intro s
    have a₁ := systemctl_is_active_cmdOK env cfg u s
    rcases h₁ : systemctl_is_active env cfg u s with ⟨st, s₁⟩
    rw [h₁] at a₁
    have a₂ := ih s₁
    rcases h₂ : serviceStatesLoop env cfg rest s₁ with ⟨out, s₂⟩
    rw [h₂] at a₂
    simp only [serviceStatesLoop, h₁, h₂]
    exact cmdOK_trans (cmdOK_cons_head a₁) (cmdOK_cons_tail a₂)

theorem stopLoop_cmdOK (env : AEnv) (cfg : AConfig) :
    ∀ (units : List String) (s : AState) (acts : List ActionEntry),
    CmdOK (units.map (systemctlCmd cfg "stop")) s
      (stopLoop env cfg units s acts).2 := by
  intro units
  induction units with
  | nil => intro s acts; exact cmdOK_refl _ s
  | cons u rest ih =>
    intro s acts
    have a₁ := systemctl_cmdOK env cfg "stop" u true s
    rcases h₁ : systemctl env cfg "stop" u true s with ⟨res, s₁⟩
    rw [h₁] at a₁
    simp only [stopLoop, h₁]
    exact cmdOK_trans (cmdOK_cons_head a₁) (cmdOK_cons_tail (ih s₁ _))

theorem stopLoop_mem (env : AEnv) (cfg : AConfig) :
    ∀ (units : List String) (s : AState) (acts : List ActionEntry),
    ∀ u ∈ units, systemctlCmd cfg "stop" u ∈ (stopLoop env cfg units s acts).2.trace := by
  intro units
  induction units with
  | nil => intro s acts u hu; simp at hu
  | cons v rest ih =>
    intro s acts u hu
    have a₁ := systemctl_cmdOK env cfg "stop" v true s
    rcases h₁ : systemctl env cfg "stop" v true s with ⟨res, s₁⟩
    rw [h₁] at a₁
    simp only [stopLoop, h₁]
    rcases List.mem_cons.mp hu with h | h
    · subst h
      have hmem : systemctlCmd cfg "stop" u ∈ s₁.trace := by
        have e : s₁ = (runCmd env (systemctlCmd cfg "stop" u) "12.0" s).2 := by
          rw [← systemctl_snd env cfg "stop" u true s, h₁]
        rw [e, runCmd_snd]
        simp
      exact cmdOK_mem (stopLoop_cmdOK env cfg rest s₁ _) hmem
    · exact ih s₁ _ u h

theorem startLoop_cmdOK (env : AEnv) (cfg : AConfig) :
    ∀ (units : List String) (s : AState) (acts : List ActionEntry),
    CmdOK (units.map (systemctlCmd cfg "start")) s
      (startLoop env cfg units s acts).2.2 := by
  intro units
  induction units with
  | nil => intro s acts; exact cmdOK_refl _ s
  | cons u rest ih =>
    intro s acts
    have a₁ := systemctl_cmdOK env cfg "start" u false s
    rcases h₁ : systemctl env cfg "start" u false s with ⟨res, s₁⟩
    rw [h₁] at a₁
    simp only [startLoop, h₁]
    by_cases hok : res.ok = true
    · simp only [hok, if_true]
      exact cmdOK_trans (cmdOK_cons_head a₁) (cmdOK_cons_tail (ih s₁ _))
    · simp only [hok, if_false, Bool.false_eq_true]
      exact cmdOK_cons_head a₁

theorem btLoop_cmdOK (env : AEnv) (cfg : AConfig) :
    ∀ (argsList : List (List String)) (s : AState) (acts : List ActionEntry),
    CmdOK (argsList.map (bluetoothctlCmd cfg)) s (btLoop env cfg argsList s acts).2 := by
  intro argsList
  induction argsList with
  | nil => intro s acts; exact cmdOK_refl _ s
  | cons args rest ih =>
    intro s acts
    have a₁ := bluetoothctl_single_cmdOK env cfg args "2.5" s
    rcases h₁ : bluetoothctl_single env cfg args "2.5" s with ⟨r, s₁⟩
    rw [h₁] at a₁
    simp only [btLoop, h₁]
    exact cmdOK_trans (cmdOK_cons_head a₁) (cmdOK_cons_tail (ih s₁ _))

theorem verifyLoop_cmdOK (env : AEnv) (cfg : AConfig) :
    ∀ (units : List String) (s : AState) (acts : List ActionEntry),
    CmdOK (units.map (systemctlCmd cfg "is-active")) s
      (verifyLoop env cfg units s acts).2.2 := by
  intro units
  induction units with
  | nil => intro s acts; exact cmdOK_refl _ s
  | cons u rest ih =>
    intro s acts
    have a₁ := systemctl_is_active_cmdOK env cfg u s
    rcases h₁ : systemctl_is_active env cfg u s with ⟨st, s₁⟩
    rw [h₁] at a₁
    simp only [verifyLoop, h₁]
    by_cases hok : st.ok = true
    · simp only [hok, if_true]
      exact cmdOK_trans (cmdOK_cons_head a₁) (cmdOK_cons_tail (ih s₁ _))
    · simp only [hok, if_false, Bool.false_eq_true]
      exact cmdOK_cons_head a₁

/-! ### Lemma layer: the stages of `_apply_mode` -/

theorem pauseStage_snd (mode : String) (cb : Option CbBeh) (s : AState)
    (acts : List ActionEntry) :
    (pauseStage mode cb s acts).2 =
      { s with pauseCalls := s.pauseCalls + pauseCount mode cb } := by
  cases s
  rcases cb with _ | beh
  · by_cases hm : mode = "spotify" <;> simp [pauseStage, pauseCount, hm]
  · cases beh <;> by_cases hm : mode = "spotify" <;>
      simp [pauseStage, pauseCount, hm]

theorem btTeardownStage_trace_eq (env : AEnv) (cfg : AConfig)
    (prev mode : String) (s : AState) (acts : List ActionEntry) :
    (btTeardownStage env cfg prev mode s acts).2.trace =
      s.trace ++ (if prev = "bluetooth" && mode ≠ "bluetooth" then
        [pairableOffCmd cfg, discoverableOffCmd cfg] else []) := by
  by_cases hc : (prev = "bluetooth" && mode ≠ "bluetooth") = true
  · rcases h₁ : bluetoothctl_single env cfg ["pairable", "off"] "2.5" s with ⟨r₁, s₁⟩
    have e₁ : s₁ = (runCmd env (bluetoothctlCmd cfg ["pairable", "off"]) "2.5" s).2 := by
      rw [← bluetoothctl_single_snd env cfg ["pairable", "off"] "2.5" s, h₁]
    rcases h₂ : bluetoothctl_single env cfg ["discoverable", "off"] "2.5" s₁ with ⟨r₂, s₂⟩
    have e₂ : s₂ = (runCmd env (bluetoothctlCmd cfg ["discoverable", "off"]) "2.5" s₁).2 := by
      rw [← bluetoothctl_single_snd env cfg ["discoverable", "off"] "2.5" s₁, h₂]
    simp only [btTeardownStage, hc, if_true, h₁, h₂]
    rw [e₂, runCmd_snd]
    simp only [e₁, runCmd_snd]
    simp [pairableOffCmd, discoverableOffCmd]
  · simp only [btTeardownStage, hc]
    simp [hc]

theorem btTeardownStage_settings_eq (env : AEnv) (cfg : AConfig)
    (prev mode : String) (s : AState) (acts : List ActionEntry) :
    (btTeardownStage env cfg prev mode s acts).2.settings = s.settings ∧
    (btTeardownStage env cfg prev mode s acts).2.applyLog = s.applyLog ∧
    (btTeardownStage env cfg prev mode s acts).2.lastActionsStored = s.lastActionsStored ∧
    (btTeardownStage env cfg prev mode s acts).2.pauseCalls = s.pauseCalls ∧
    (btTeardownStage env cfg prev mode s acts).2.now = s.now := by
  by_cases hc : (prev = "bluetooth" && mode ≠ "bluetooth") = true
  · rcases h₁ : bluetoothctl_single env cfg ["pairable", "off"] "2.5" s with ⟨r₁, s₁⟩
    have e₁ : s₁ = (runCmd env (bluetoothctlCmd cfg ["pairable", "off"]) "2.5" s).2 := by
      rw [← bluetoothctl_single_snd env cfg ["pairable", "off"] "2.5" s, h₁]
    rcases h₂ : bluetoothctl_single env cfg ["discoverable", "off"] "2.5" s₁ with ⟨r₂, s₂⟩
    have e₂ : s₂ = (runCmd env (bluetoothctlCmd cfg ["discoverable", "off"]) "2.5" s₁).2 := by
      rw [← bluetoothctl_single_snd env cfg ["discoverable", "off"] "2.5" s₁, h₂]
    simp only [btTeardownStage, hc, if_true, h₁, h₂]
    rw [e₂, runCmd_snd]
    simp [e₁, runCmd_snd]
  · simp only [btTeardownStage, hc]
    simp

theorem set_sink_mute_mem (env : AEnv) (m : Bool) (s : AState) :
    wpctlMuteCmd m ∈ (set_sink_mute env m s).2.trace := by
  have h₁ := runCmd_cmdOK env (wpctlMuteCmd m) "5.0" s
  rcases hr : runCmd env (wpctlMuteCmd m) "5.0" s with ⟨r, s₁⟩
  have e₁ : s₁ = (runCmd env (wpctlMuteCmd m) "5.0" s).2 := by rw [hr]
  have hm : wpctlMuteCmd m ∈ s₁.trace := by rw [e₁, runCmd_snd]; simp
  simp only [set_sink_mute, hr]
  by_cases hok : r.ok = true
  · simpa [hok] using hm
  · simp only [hok, if_false, Bool.false_eq_true]
    exact cmdOK_mem (runCmd_cmdOK env (pactlMuteCmd m) "5.0" s₁) hm

theorem set_sink_volume_mem (env : AEnv) (v : Int) (s : AState) :
    wpctlVolumeCmd (volClamp v) ∈ (set_sink_volume env v s).2.trace := by
  have h₁ := runCmd_cmdOK env (wpctlVolumeCmd (volClamp v)) "5.0" s
  rcases hr : runCmd env (wpctlVolumeCmd (volClamp v)) "5.0" s with ⟨r, s₁⟩
  have e₁ : s₁ = (runCmd env (wpctlVolumeCmd (volClamp v)) "5.0" s).2 := by rw [hr]
  have hm : wpctlVolumeCmd (volClamp v) ∈ s₁.trace := by rw [e₁, runCmd_snd]; simp
  simp only [set_sink_volume, hr]
  by_cases hok : r.ok = true
  · simpa [hok] using hm
  · simp only [hok, if_false, Bool.false_eq_true]
    exact cmdOK_mem (runCmd_cmdOK env (pactlVolumeCmd (volClamp v)) "5.0" s₁) hm

theorem audioStage_cmdOK (env : AEnv) (mode : String) (s : AState)
    (acts : List ActionEntry) :
    CmdOK [wpctlMuteCmd true, pactlMuteCmd true, wpctlVolumeCmd 35,
           pactlVolumeCmd 35, wpctlMuteCmd false, pactlMuteCmd false] s
      (audioStage env mode s acts).2 := by
  by_cases hm : mode = "mute"
  · have a₁ := set_sink_mute_cmdOK env true s
    rcases h₁ : set_sink_mute env true s with ⟨r₁, s₁⟩
    rw [h₁] at a₁
    have a₂ := set_sink_volume_cmdOK env 35 s₁
    rcases h₂ : set_sink_volume env 35 s₁ with ⟨r₂, s₂⟩
    rw [h₂] at a₂
    simp only [audioStage, hm, if_true, h₁, h₂]
    refine cmdOK_trans (cmdOK_mono ?_ a₁) (cmdOK_mono ?_ a₂)
    · intro c hc; simp at hc; rcases hc with h | h <;> simp [h]
    · intro c hc; simp at hc
      have : volClamp 35 = 35 := by decide
      rw [this] at hc
      rcases hc with h | h <;> simp [h]
  · have a₁ := set_sink_mute_cmdOK env false s
    rcases h₁ : set_sink_mute env false s with ⟨r₁, s₁⟩
    rw [h₁] at a₁
    simp only [audioStage, hm, if_false, h₁]
    refine cmdOK_mono ?_ a₁
    intro c hc; simp at hc; rcases hc with h | h <;> simp [h]

theorem audioStage_mute_mem (env : AEnv) (s : AState) (acts : List ActionEntry) :
    wpctlMuteCmd true ∈ (audioStage env "mute" s acts).2.trace ∧
    wpctlVolumeCmd 35 ∈ (audioStage env "mute" s acts).2.trace := by
  have hm₁ := set_sink_mute_mem env true s
  rcases h₁ : set_sink_mute env true s with ⟨r₁, s₁⟩
  rw [h₁] at hm₁
  have a₂ := set_sink_volume_cmdOK env 35 s₁
  have hm₂ := set_sink_volume_mem env 35 s₁
  rcases h₂ : set_sink_volume env 35 s₁ with ⟨r₂, s₂⟩
  rw [h₂] at a₂ hm₂
  have hv : volClamp 35 = 35 := by decide
  simp only [audioStage, if_true, h₁, h₂]
  constructor
  · exact cmdOK_mem a₂ hm₁
  · rwa [hv] at hm₂

theorem btSetupStage_cmdOK (env : AEnv) (cfg : AConfig) (mode : String)
    (s : AState) (acts : List ActionEntry) :
    CmdOK ((btSetupSteps cfg).map (bluetoothctlCmd cfg)) s
      (btSetupStage env cfg mode s acts).2 := by
  by_cases hm : mode = "bluetooth"
  · simp only [btSetupStage, hm, if_true]
    exact btLoop_cmdOK env cfg (btSetupSteps cfg) s acts
  · simp only [btSetupStage, hm, if_false]
    exact cmdOK_refl _ s

/-! ### Lemma layer: settings persistence and status -/

theorem get_setting_set_self (st : List (String × String)) (k v d : String) :
    get_setting (set_setting st k v) k d = v := by
  simp [get_setting, set_setting, getSettingRaw]

theorem get_setting_set_ne (st : List (String × String)) {k k' : String}
    (v d : String) (h : k ≠ k') :
    get_setting (set_setting st k v) k' d = get_setting st k' d := by
  simp [get_setting, set_setting, getSettingRaw, h]

theorem persist_mode_media_mode (m : String) (s : AState) (d : String) :
    get_setting (persist_mode m s).settings SETTING_MEDIA_MODE d = m := by
  simp only [persist_mode]
  rw [get_setting_set_ne _ _ _ (by decide), get_setting_set_ne _ _ _ (by decide),
      get_setting_set_ne _ _ _ (by decide), get_setting_set_ne _ _ _ (by decide),
      get_setting_set_self]

theorem persist_mode_ts (m : String) (s : AState) (d : String) :
    get_setting (persist_mode m s).settings SETTING_LAST_SWITCH_TS d =
      toString s.now := by
  simp only [persist_mode]
  rw [get_setting_set_self]

theorem persist_last_error_media_mode (e : String) (s : AState) (d : String) :
    get_setting (persist_last_error e s).settings SETTING_MEDIA_MODE d =
      get_setting s.settings SETTING_MEDIA_MODE d := by
  simp only [persist_last_error]
  rw [get_setting_set_ne _ _ _ (by decide)]

theorem persist_last_error_av_mode (e : String) (s : AState) (d : String) :
    get_setting (persist_last_error e s).settings "av_mode" d =
      get_setting s.settings "av_mode" d := by
  simp only [persist_last_error]
  rw [get_setting_set_ne _ _ _ (by decide)]

theorem persist_last_error_last_error (e : String) (s : AState) (d : String) :
    get_setting (persist_last_error e s).settings SETTING_LAST_ERROR d =
      pyStrip e := by
  simp only [persist_last_error]
  rw [get_setting_set_self]

theorem current_mode_persist_last_error (e : String) (s : AState) :
    current_mode (persist_last_error e s).settings = current_mode s.settings := by
  simp only [current_mode]
  rw [persist_last_error_media_mode, persist_last_error_av_mode]

theorem statusTsParse_persist_last_error (e : String) (s : AState) :
    statusTsParse (persist_last_error e s).settings = statusTsParse s.settings := by
  simp only [statusTsParse, persist_last_error]
  rw [get_setting_set_ne _ _ _ (by decide)]

theorem statusTsParse_persist_mode (m : String) (s : AState) :
    statusTsParse (persist_mode m s).settings = tsChain (toString s.now) := by
  simp only [statusTsParse]
  rw [persist_mode_ts]

theorem cmdOK_cache_update {a : List (List String)} {s s' : AState}
    (x : Option StatusPayload) (y : Nat) (h : CmdOK a s s') :
    CmdOK a s { s' with statusCache := x, statusCacheTs := y } := by
  obtain ⟨e₁, e₂, e₃, e₄, e₅, δ, ht, hp⟩ := h
  exact ⟨e₁, e₂, e₃, e₄, e₅, δ, ht, hp⟩

theorem service_states_snd (env : AEnv) (cfg : AConfig) (s : AState) :
    (service_states env cfg s).2 = (serviceStatesLoop env cfg STATUS_UNITS s).2 := rfl

theorem statusFresh_err {s : AState} {e : String} (env : AEnv) (cfg : AConfig)
    (h : statusTsParse s.settings = .error e) :
    statusFresh env cfg s = (.error e, s) := by
  simp only [statusFresh, h]

theorem statusFresh_ok_spec {s : AState} {n : Int} (env : AEnv) (cfg : AConfig)
    (h : statusTsParse s.settings = .ok n) :
    ∃ p s', statusFresh env cfg s = (.ok p, s') ∧
      CmdOK (statusQueryCmds cfg) s s' ∧
      p.mode = current_mode s.settings ∧ p.noop = false ∧ p.ensured = false ∧
      p.last_switch_ts = n ∧
      p.last_error = pyStrip (get_setting s.settings SETTING_LAST_ERROR "") := by
  have a₁ : CmdOK (statusQueryCmds cfg) s (service_states env cfg s).2 := by
    rw [service_states_snd]
    exact cmdOK_mono (fun c hc => List.mem_append_left _ hc)
      (serviceStatesLoop_cmdOK env cfg STATUS_UNITS s)
  rcases h₁ : service_states env cfg s with ⟨svcs, s₁⟩
  rw [h₁] at a₁
  have a₂ : CmdOK (statusQueryCmds cfg) s₁ (audio_muted env s₁).2 := by
    refine cmdOK_mono ?_ (audio_muted_cmdOK env s₁)
    intro c hc; simp at hc
    rcases hc with h | h <;> simp [statusQueryCmds, h]
  rcases h₂ : audio_muted env s₁ with ⟨am, s₂⟩
  rw [h₂] at a₂
  have a₃ : CmdOK (statusQueryCmds cfg) s₂
      (bluetooth_connected_devices env cfg (current_mode s.settings) s₂).2 := by
    refine cmdOK_mono ?_ (bluetooth_connected_devices_cmdOK env cfg _ s₂)
    intro c hc; simp at hc; simp [statusQueryCmds, hc]
  rcases h₃ : bluetooth_connected_devices env cfg (current_mode s.settings) s₂ with ⟨btd, s₃⟩
  rw [h₃] at a₃
  have heq : statusFresh env cfg s =
      (.ok { mode := current_mode s.settings, valid_modes := VALID_MEDIA_MODES,
             last_switch_ts := n,
             last_error := pyStrip (get_setting s.settings SETTING_LAST_ERROR ""),
             services := svcs, audio_muted := am,
             bluetooth_connected_devices := btd,
             last_actions := s.lastActionsStored.drop (s.lastActionsStored.length - 20) },
       { s₃ with
         statusCache := some
           { mode := current_mode s.settings,
             valid_modes := VALID_MEDIA_MODES,
             last_switch_ts := n,
             last_error := pyStrip (get_setting s.settings SETTING_LAST_ERROR ""),
             services := svcs,
             audio_muted := am,
             bluetooth_connected_devices := btd,
             last_actions := s.lastActionsStored.drop (s.lastActionsStored.length - 20) },
         statusCacheTs := s₃.now }) := by
    simp only [statusFresh, h, h₁, h₂, h₃]
  exact ⟨_, _, heq, cmdOK_cache_update _ _ (cmdOK_trans (cmdOK_trans a₁ a₂) a₃),
         rfl, rfl, rfl, rfl, rfl⟩

theorem get_status_refresh (env : AEnv) (cfg : AConfig) (s : AState) :
    get_media_mode_status env cfg true s = statusFresh env cfg s := by
  unfold get_media_mode_status
  cases hc : s.statusCache <;> simp

/-! ### Lemma layer: command disequalities (independent of configuration) -/

theorem pairableOffCmd_eq (cfg : AConfig) :
    pairableOffCmd cfg = [cfg.sudoBin, "-n", "bluetoothctl", "pairable", "off"] := by
  simp [pairableOffCmd, bluetoothctlCmd]

theorem discoverableOffCmd_eq (cfg : AConfig) :
    discoverableOffCmd cfg = [cfg.sudoBin, "-n", "bluetoothctl", "discoverable", "off"] := by
  simp [discoverableOffCmd, bluetoothctlCmd]

theorem pairableOff_ne_discoverableOff (cfg : AConfig) :
    pairableOffCmd cfg ≠ discoverableOffCmd cfg := by
  rw [pairableOffCmd_eq, discoverableOffCmd_eq]
  simp

theorem systemctlCmd_ne_pairableOff (cfg : AConfig) {a : String} (u : String)
    (h : a ≠ "pairable") : systemctlCmd cfg a u ≠ pairableOffCmd cfg := by
  rw [pairableOffCmd_eq]
  simp [systemctlCmd, h]

theorem systemctlCmd_ne_discoverableOff (cfg : AConfig) {a : String} (u : String)
    (h : a ≠ "discoverable") : systemctlCmd cfg a u ≠ discoverableOffCmd cfg := by
  rw [discoverableOffCmd_eq]
  simp [systemctlCmd, h]

theorem mixer_ne_pairableOff (cfg : AConfig) (c : List String)
    (hc : c = wpctlMuteCmd true ∨ c = pactlMuteCmd true ∨ c = wpctlVolumeCmd 35 ∨
          c = pactlVolumeCmd 35 ∨ c = wpctlMuteCmd false ∨ c = pactlMuteCmd false ∨
          c = wpctlGetVolumeCmd ∨ c = pactlGetMuteCmd) :
    c ≠ pairableOffCmd cfg ∧ c ≠ discoverableOffCmd cfg := by
  rw [pairableOffCmd_eq, discoverableOffCmd_eq]
  rcases hc with h | h | h | h | h | h | h | h <;>
    subst h <;>
    constructor <;>
    simp [wpctlMuteCmd, pactlMuteCmd, wpctlVolumeCmd, pactlVolumeCmd,
          wpctlGetVolumeCmd, pactlGetMuteCmd]

theorem btSetup_ne_off (cfg : AConfig) (c : List String)
    (hc : c ∈ (btSetupSteps cfg).map (bluetoothctlCmd cfg)) :
    c ≠ pairableOffCmd cfg ∧ c ≠ discoverableOffCmd cfg := by
  rw [pairableOffCmd_eq, discoverableOffCmd_eq]
  simp [btSetupSteps, bluetoothctlCmd] at hc
  rcases hc with h | h | h | h <;> subst h <;> constructor <;> simp

/-! ### Lemma layer: the action log only grows -/

theorem pauseStage_fst (mode : String) (cb : Option CbBeh) (s : AState)
    (acts : List ActionEntry) :
    (pauseStage mode cb s acts).1 = acts ++ pauseActs mode cb := by
  rcases cb with _ | beh
  · by_cases hm : mode = "spotify" <;> simp [pauseStage, pauseActs, hm]
  · cases beh <;> by_cases hm : mode = "spotify" <;>
      simp [pauseStage, pauseActs, hm]

theorem stopLoop_fst (env : AEnv) (cfg : AConfig) :
    ∀ (units : List String) (s : AState) (acts : List ActionEntry),
    ∃ δ, (stopLoop env cfg units s acts).1 = acts ++ δ := by
  intro units
  induction units with
  | nil => intro s acts; exact ⟨[], by simp [stopLoop]⟩
  | cons u rest ih =>
    intro s acts
    rcases h₁ : systemctl env cfg "stop" u true s with ⟨res, s₁⟩
    obtain ⟨δ, hδ⟩ := ih s₁ (acts ++ [.stop u res.ok res.ignored res.r])
    exact ⟨[.stop u res.ok res.ignored res.r] ++ δ, by
      simp only [stopLoop, h₁, hδ, List.append_assoc]⟩

theorem btTeardownStage_fst (env : AEnv) (cfg : AConfig) (prev mode : String)
    (s : AState) (acts : List ActionEntry) :
    ∃ δ, (btTeardownStage env cfg prev mode s acts).1 = acts ++ δ := by
  by_cases hc : (prev = "bluetooth" && mode ≠ "bluetooth") = true
  · rcases h₁ : bluetoothctl_single env cfg ["pairable", "off"] "2.5" s with ⟨r₁, s₁⟩
    rcases h₂ : bluetoothctl_single env cfg ["discoverable", "off"] "2.5" s₁ with ⟨r₂, s₂⟩
    exact ⟨[.bt ["pairable", "off"] r₁.ok r₁, .bt ["discoverable", "off"] r₂.ok r₂],
      by simp only [btTeardownStage, hc, if_true, h₁, h₂]⟩
  · exact ⟨[], by simp only [btTeardownStage]; rw [if_neg hc]; simp⟩

theorem audioStage_fst (env : AEnv) (mode : String) (s : AState)
    (acts : List ActionEntry) :
    ∃ δ, (audioStage env mode s acts).1 = acts ++ δ := by
  by_cases hm : mode = "mute"
  · rcases h₁ : set_sink_mute env true s with ⟨r₁, s₁⟩
    rcases h₂ : set_sink_volume env 35 s₁ with ⟨r₂, s₂⟩
    exact ⟨[.sinkMute true r₁.ok r₁, .sinkVolume 35 r₂.ok r₂],
      by simp only [audioStage, hm, if_true, h₁, h₂]⟩
  · rcases h₁ : set_sink_mute env false s with ⟨r₁, s₁⟩
    exact ⟨[.sinkMute false r₁.ok r₁],
      by simp only [audioStage, hm, if_false, h₁]⟩

theorem startLoop_fst (env : AEnv) (cfg : AConfig) :
    ∀ (units : List String) (s : AState) (acts : List ActionEntry),
    ∃ δ, (startLoop env cfg units s acts).2.1 = acts ++ δ := by
  intro units
  induction units with
  | nil => intro s acts; exact ⟨[], by simp [startLoop]⟩
  | cons u rest ih =>
    intro s acts
    rcases h₁ : systemctl env cfg "start" u false s with ⟨res, s₁⟩
    by_cases hok : res.ok = true
    · obtain ⟨δ, hδ⟩ := ih s₁ (acts ++ [.start u res.ok res.ignored res.r])
      rw [hok] at hδ
      exact ⟨[.start u true res.ignored res.r] ++ δ, by
        simp only [startLoop, h₁, hok, if_true, hδ, List.append_assoc]⟩
    · exact ⟨[.start u res.ok res.ignored res.r], by
        simp only [startLoop, h₁, hok, if_false, Bool.false_eq_true]⟩

theorem btLoop_fst (env : AEnv) (cfg : AConfig) :
    ∀ (argsList : List (List String)) (s : AState) (acts : List ActionEntry),
    ∃ δ, (btLoop env cfg argsList s acts).1 = acts ++ δ := by
  intro argsList
  induction argsList with
  | nil => intro s acts; exact ⟨[], by simp [btLoop]⟩
  | cons args rest ih =>
    intro s acts
    rcases h₁ : bluetoothctl_single env cfg args "2.5" s with ⟨r, s₁⟩
    obtain ⟨δ, hδ⟩ := ih s₁ (acts ++ [.bt args r.ok r])
    exact ⟨[.bt args r.ok r] ++ δ, by
      simp only [btLoop, h₁, hδ, List.append_assoc]⟩

theorem btSetupStage_fst (env : AEnv) (cfg : AConfig) (mode : String)
    (s : AState) (acts : List ActionEntry) :
    ∃ δ, (btSetupStage env cfg mode s acts).1 = acts ++ δ := by
  by_cases hm : mode = "bluetooth"
  · simp only [btSetupStage, hm, if_true]
    exact btLoop_fst env cfg (btSetupSteps cfg) s acts
  · exact ⟨[], by simp [btSetupStage, hm]⟩

theorem verifyLoop_fst (env : AEnv) (cfg : AConfig) :
    ∀ (units : List String) (s : AState) (acts : List ActionEntry),
    ∃ δ, (verifyLoop env cfg units s acts).2.1 = acts ++ δ := by
  intro units
  induction units with
  | nil => intro s acts; exact ⟨[], by simp [verifyLoop]⟩
  | cons u rest ih =>
    intro s acts
    rcases h₁ : systemctl_is_active env cfg u s with ⟨st, s₁⟩
    by_cases hok : st.ok = true
    · obtain ⟨δ, hδ⟩ := ih s₁ (acts ++ [.verify u st.ok st.status st.stderr])
      rw [hok] at hδ
      exact ⟨[.verify u true st.status st.stderr] ++ δ, by
        simp only [verifyLoop, h₁, hok, if_true, hδ, List.append_assoc]⟩
    · exact ⟨[.verify u st.ok st.status st.stderr], by
        simp only [verifyLoop, h₁, hok, if_false, Bool.false_eq_true]⟩

/-! ### Lemma layer: full characterization of one `_apply_mode` run -/

theorem apply_mode_spec (env : AEnv) (cfg : AConfig) (mode prev : String)
    (cb : Option CbBeh) (s : AState) (acts : List ActionEntry)
    (hv : VALID_MEDIA_MODES.contains mode = true) :
    ∃ res acts' s', apply_mode env cfg mode prev cb s acts = (res, acts', s') ∧
      s'.settings = s.settings ∧
      s'.applyLog = s.applyLog ++ [(mode, prev)] ∧
      s'.lastActionsStored = s.lastActionsStored ∧
      s'.now = s.now ∧
      s'.pauseCalls = s.pauseCalls + pauseCount mode cb ∧
      (∀ u ∈ stopUnits mode, systemctlCmd cfg "stop" u ∈ s'.trace) ∧
      s'.trace.count (pairableOffCmd cfg) = s.trace.count (pairableOffCmd cfg) +
        (if prev = "bluetooth" && mode ≠ "bluetooth" then 1 else 0) ∧
      s'.trace.count (discoverableOffCmd cfg) = s.trace.count (discoverableOffCmd cfg) +
        (if prev = "bluetooth" && mode ≠ "bluetooth" then 1 else 0) ∧
      (∃ δ, s'.trace = s.trace ++ δ) ∧
      (∃ δa, acts' = (acts ++ pauseActs mode cb) ++ δa) ∧
      (mode = "mute" → res = .ok () ∧ wpctlMuteCmd true ∈ s'.trace ∧
        wpctlVolumeCmd 35 ∈ s'.trace) := by
  have hnp : ∀ a u, a ≠ "pairable" →
      pairableOffCmd cfg ∉ [systemctlCmd cfg a u] := by
    intro a u ha hmem
    simp at hmem
    exact systemctlCmd_ne_pairableOff cfg u ha hmem.symm
  -- membership refuters for mapped command lists
  have hnpStop : pairableOffCmd cfg ∉ (stopUnits mode).map (systemctlCmd cfg "stop") := by
    intro hmem
    rcases List.mem_map.mp hmem with ⟨u, -, hequ⟩
    exact systemctlCmd_ne_pairableOff cfg u (by decide) hequ
  have hndStop : discoverableOffCmd cfg ∉ (stopUnits mode).map (systemctlCmd cfg "stop") := by
    intro hmem
    rcases List.mem_map.mp hmem with ⟨u, -, hequ⟩
    exact systemctlCmd_ne_discoverableOff cfg u (by decide) hequ
  have hnpStart : ∀ units : List String,
      pairableOffCmd cfg ∉ units.map (systemctlCmd cfg "start") := by
    intro units hmem
    rcases List.mem_map.mp hmem with ⟨u, -, hequ⟩
    exact systemctlCmd_ne_pairableOff cfg u (by decide) hequ
  have hndStart : ∀ units : List String,
      discoverableOffCmd cfg ∉ units.map (systemctlCmd cfg "start") := by
    intro units hmem
    rcases List.mem_map.mp hmem with ⟨u, -, hequ⟩
    exact systemctlCmd_ne_discoverableOff cfg u (by decide) hequ
  have hnpVer : ∀ units : List String,
      pairableOffCmd cfg ∉ units.map (systemctlCmd cfg "is-active") := by
    intro units hmem
    rcases List.mem_map.mp hmem with ⟨u, -, hequ⟩
    exact systemctlCmd_ne_pairableOff cfg u (by decide) hequ
  have hndVer : ∀ units : List String,
      discoverableOffCmd cfg ∉ units.map (systemctlCmd cfg "is-active") := by
    intro units hmem
    rcases List.mem_map.mp hmem with ⟨u, -, hequ⟩
    exact systemctlCmd_ne_discoverableOff cfg u (by decide) hequ
  have hnpAudio : pairableOffCmd cfg ∉
      [wpctlMuteCmd true, pactlMuteCmd true, wpctlVolumeCmd 35,
       pactlVolumeCmd 35, wpctlMuteCmd false, pactlMuteCmd false] := by
    intro hmem
    simp only [List.mem_cons, List.not_mem_nil, or_false] at hmem
    have := mixer_ne_pairableOff cfg (pairableOffCmd cfg)
      (by tauto)
    exact this.1 rfl
  have hndAudio : discoverableOffCmd cfg ∉
      [wpctlMuteCmd true, pactlMuteCmd true, wpctlVolumeCmd 35,
       pactlVolumeCmd 35, wpctlMuteCmd false, pactlMuteCmd false] := by
    intro hmem
    simp only [List.mem_cons, List.not_mem_nil, or_false] at hmem
    have := mixer_ne_pairableOff cfg (discoverableOffCmd cfg)
      (by tauto)
    exact this.2 rfl
  have hnpSetup : pairableOffCmd cfg ∉ (btSetupSteps cfg).map (bluetoothctlCmd cfg) := by
    intro hmem
    exact (btSetup_ne_off cfg _ hmem).1 rfl
  have hndSetup : discoverableOffCmd cfg ∉ (btSetupSteps cfg).map (bluetoothctlCmd cfg) := by
    intro hmem
    exact (btSetup_ne_off cfg _ hmem).2 rfl
  -- walk the pipeline
  rcases hp : pauseStage mode cb { s with applyLog := s.applyLog ++ [(mode, prev)] } acts
    with ⟨acts₁, t₁⟩
  have hps : t₁ = { { s with applyLog := s.applyLog ++ [(mode, prev)] } with
      pauseCalls := s.pauseCalls + pauseCount mode cb } := by
    have h := pauseStage_snd mode cb { s with applyLog := s.applyLog ++ [(mode, prev)] } acts
    rw [hp] at h
    exact h
  have t₁settings : t₁.settings = s.settings := by rw [hps]
  have t₁applyLog : t₁.applyLog = s.applyLog ++ [(mode, prev)] := by rw [hps]
  have t₁acts : t₁.lastActionsStored = s.lastActionsStored := by rw [hps]
  have t₁now : t₁.now = s.now := by rw [hps]
  have t₁pause : t₁.pauseCalls = s.pauseCalls + pauseCount mode cb := by rw [hps]
  have t₁trace : t₁.trace = s.trace := by rw [hps]
  rcases hst : stopLoop env cfg (stopUnits mode) t₁ acts₁ with ⟨acts₂, t₂⟩
  have a₂ := stopLoop_cmdOK env cfg (stopUnits mode) t₁ acts₁
  have m₂ := stopLoop_mem env cfg (stopUnits mode) t₁ acts₁
  rw [hst] at a₂ m₂
  rcases hbt : btTeardownStage env cfg prev mode t₂ acts₂ with ⟨acts₃, t₃⟩
  have e₃ := btTeardownStage_trace_eq env cfg prev mode t₂ acts₂
  have p₃ := btTeardownStage_settings_eq env cfg prev mode t₂ acts₂
  rw [hbt] at e₃ p₃
  rcases hau : audioStage env mode t₃ acts₃ with ⟨acts₄, t₄⟩
  have a₄ := audioStage_cmdOK env mode t₃ acts₃
  rw [hau] at a₄
  rcases hsl : startLoop env cfg (MODE_START_SERVICES mode) t₄ acts₄ with ⟨res₅, acts₅, t₅⟩
  have a₅ := startLoop_cmdOK env cfg (MODE_START_SERVICES mode) t₄ acts₄
  rw [hsl] at a₅
  -- scalar facts up to t₅
  have t₅settings : t₅.settings = s.settings := by
    rw [a₅.1, a₄.1, p₃.1, a₂.1, t₁settings]
  have t₅applyLog : t₅.applyLog = s.applyLog ++ [(mode, prev)] := by
    rw [a₅.2.1, a₄.2.1, p₃.2.1, a₂.2.1, t₁applyLog]
  have t₅acts : t₅.lastActionsStored = s.lastActionsStored := by
    rw [a₅.2.2.1, a₄.2.2.1, p₃.2.2.1, a₂.2.2.1, t₁acts]
  have t₅now : t₅.now = s.now := by
    rw [a₅.2.2.2.2.1, a₄.2.2.2.2.1, p₃.2.2.2.2, a₂.2.2.2.2.1, t₁now]
  have t₅pause : t₅.pauseCalls = s.pauseCalls + pauseCount mode cb := by
    rw [a₅.2.2.2.1, a₄.2.2.2.1, p₃.2.2.2.1, a₂.2.2.2.1, t₁pause]
  -- counts up to t₅
  have c₂p : t₂.trace.count (pairableOffCmd cfg) = s.trace.count (pairableOffCmd cfg) := by
    rw [cmdOK_count a₂ hnpStop, t₁trace]
  have c₂d : t₂.trace.count (discoverableOffCmd cfg) = s.trace.count (discoverableOffCmd cfg) := by
    rw [cmdOK_count a₂ hndStop, t₁trace]
  have c₃p : t₃.trace.count (pairableOffCmd cfg) = s.trace.count (pairableOffCmd cfg) +
      (if prev = "bluetooth" && mode ≠ "bluetooth" then 1 else 0) := by
    rw [e₃, List.count_append, c₂p]
    by_cases hc : (prev = "bluetooth" && mode ≠ "bluetooth") = true
    · rw [if_pos hc, if_pos hc]
      have h1 : List.count (pairableOffCmd cfg)
          [pairableOffCmd cfg, discoverableOffCmd cfg] = 1 := by
        simp [List.count_cons, beq_iff_eq, pairableOff_ne_discoverableOff cfg]
      rw [h1]
    · rw [if_neg hc, if_neg hc]
      simp
  have c₃d : t₃.trace.count (discoverableOffCmd cfg) = s.trace.count (discoverableOffCmd cfg) +
      (if prev = "bluetooth" && mode ≠ "bluetooth" then 1 else 0) := by
    rw [e₃, List.count_append, c₂d]
    by_cases hc : (prev = "bluetooth" && mode ≠ "bluetooth") = true
    · rw [if_pos hc, if_pos hc]
      have h1 : List.count (discoverableOffCmd cfg)
          [pairableOffCmd cfg, discoverableOffCmd cfg] = 1 := by
        simp [List.count_cons, beq_iff_eq,
              (Ne.symm (pairableOff_ne_discoverableOff cfg))]
      rw [h1]
    · rw [if_neg hc, if_neg hc]
      simp
  have c₄p : t₄.trace.count (pairableOffCmd cfg) = t₃.trace.count (pairableOffCmd cfg) :=
    cmdOK_count a₄ hnpAudio
  have c₄d : t₄.trace.count (discoverableOffCmd cfg) = t₃.trace.count (discoverableOffCmd cfg) :=
    cmdOK_count a₄ hndAudio
  have c₅p : t₅.trace.count (pairableOffCmd cfg) = t₄.trace.count (pairableOffCmd cfg) :=
    cmdOK_count a₅ (hnpStart _)
  have c₅d : t₅.trace.count (discoverableOffCmd cfg) = t₄.trace.count (discoverableOffCmd cfg) :=
    cmdOK_count a₅ (hndStart _)
  -- action-log extension up to t₅
  have f₁ : acts₁ = acts ++ pauseActs mode cb := by
    have h := pauseStage_fst mode cb { s with applyLog := s.applyLog ++ [(mode, prev)] } acts
    rw [hp] at h
    exact h
  obtain ⟨d₂, f₂⟩ := stopLoop_fst env cfg (stopUnits mode) t₁ acts₁
  rw [hst] at f₂
  replace f₂ : acts₂ = acts₁ ++ d₂ := f₂
  obtain ⟨d₃, f₃⟩ := btTeardownStage_fst env cfg prev mode t₂ acts₂
  rw [hbt] at f₃
  replace f₃ : acts₃ = acts₂ ++ d₃ := f₃
  obtain ⟨d₄, f₄⟩ := audioStage_fst env mode t₃ acts₃
  rw [hau] at f₄
  replace f₄ : acts₄ = acts₃ ++ d₄ := f₄
  obtain ⟨d₅, f₅⟩ := startLoop_fst env cfg (MODE_START_SERVICES mode) t₄ acts₄
  rw [hsl] at f₅
  replace f₅ : acts₅ = acts₄ ++ d₅ := f₅
  have y₅ : ∃ δa, acts₅ = (acts ++ pauseActs mode cb) ++ δa :=
    ⟨d₂ ++ (d₃ ++ (d₄ ++ d₅)), by
      rw [f₅, f₄, f₃, f₂, f₁]
      simp only [List.append_assoc]⟩
  -- trace extension up to t₅
  have x₅ : ∃ δ, t₅.trace = s.trace ++ δ := by
    obtain ⟨δ₂, h₂, -⟩ := a₂.2.2.2.2.2
    obtain ⟨δ₄, h₄, -⟩ := a₄.2.2.2.2.2
    obtain ⟨δ₅, h₅, -⟩ := a₅.2.2.2.2.2
    refine ⟨δ₂ ++ ((if (prev = "bluetooth" && mode ≠ "bluetooth") = true then
      [pairableOffCmd cfg, discoverableOffCmd cfg] else []) ++ (δ₄ ++ δ₅)), ?_⟩
    rw [h₅, h₄, e₃, h₂, t₁trace]
    simp [List.append_assoc]
  -- stop membership up to t₅
  have m₅ : ∀ u ∈ stopUnits mode, systemctlCmd cfg "stop" u ∈ t₅.trace := by
    intro u hu
    have h₂ : systemctlCmd cfg "stop" u ∈ t₂.trace := m₂ u hu
    have h₃ : systemctlCmd cfg "stop" u ∈ t₃.trace := by
      rw [e₃]; exact List.mem_append_left _ h₂
    exact cmdOK_mem a₅ (cmdOK_mem a₄ h₃)
  cases res₅ with
  | error e =>
    have heq : apply_mode env cfg mode prev cb s acts = (.error e, acts₅, t₅) := by
      simp only [apply_mode, hv, Bool.not_true, Bool.false_eq_true, if_false, hp, hst,
                 hbt, hau, hsl]
    refine ⟨.error e, acts₅, t₅, heq, t₅settings, t₅applyLog, t₅acts, t₅now, t₅pause,
            m₅, by rw [c₅p, c₄p, c₃p], by rw [c₅d, c₄d, c₃d], x₅, y₅, ?_⟩
    intro hm
    subst hm
    simp [ MODE_START_SERVICES, startLoop] at hsl
  | ok u₅ =>
    rcases hbs : btSetupStage env cfg mode t₅ acts₅ with ⟨acts₆, t₆⟩
    have a₆ := btSetupStage_cmdOK env cfg mode t₅ acts₅
    rw [hbs] at a₆
    rcases hvl : verifyLoop env cfg (MODE_START_SERVICES mode) t₆ acts₆ with ⟨res₇, acts₇, t₇⟩
    have a₇ := verifyLoop_cmdOK env cfg (MODE_START_SERVICES mode) t₆ acts₆
    rw [hvl] at a₇
    have heq : apply_mode env cfg mode prev cb s acts = (res₇, acts₇, t₇) := by
      simp only [apply_mode, hv, Bool.not_true, Bool.false_eq_true, if_false, hp, hst,
                 hbt, hau, hsl, hbs, hvl]
    obtain ⟨d₆, f₆⟩ := btSetupStage_fst env cfg mode t₅ acts₅
    rw [hbs] at f₆
    replace f₆ : acts₆ = acts₅ ++ d₆ := f₆
    obtain ⟨d₇, f₇⟩ := verifyLoop_fst env cfg (MODE_START_SERVICES mode) t₆ acts₆
    rw [hvl] at f₇
    replace f₇ : acts₇ = acts₆ ++ d₇ := f₇
    refine ⟨res₇, acts₇, t₇, heq, ?_, ?_, ?_, ?_, ?_, ?_, ?_, ?_, ?_, ?_, ?_⟩
    · rw [a₇.1, a₆.1, t₅settings]
    · rw [a₇.2.1, a₆.2.1, t₅applyLog]
    · rw [a₇.2.2.1, a₆.2.2.1, t₅acts]
    · rw [a₇.2.2.2.2.1, a₆.2.2.2.2.1, t₅now]
    · rw [a₇.2.2.2.1, a₆.2.2.2.1, t₅pause]
    · intro u hu
      exact cmdOK_mem a₇ (cmdOK_mem a₆ (m₅ u hu))
    · rw [cmdOK_count a₇ (hnpVer _), cmdOK_count a₆ hnpSetup, c₅p, c₄p, c₃p]
    · rw [cmdOK_count a₇ (hndVer _), cmdOK_count a₆ hndSetup, c₅d, c₄d, c₃d]
    · obtain ⟨δ, hδ⟩ := x₅
      obtain ⟨δ₆, h₆, -⟩ := a₆.2.2.2.2.2
      obtain ⟨δ₇, h₇, -⟩ := a₇.2.2.2.2.2
      exact ⟨δ ++ (δ₆ ++ δ₇), by rw [h₇, h₆, hδ]; simp [List.append_assoc]⟩
    · obtain ⟨δa, hδa⟩ := y₅
      exact ⟨δa ++ (d₆ ++ d₇), by
        rw [f₇, f₆, hδa]; simp only [List.append_assoc]⟩
    · intro hm
      subst hm
      have hmem := audioStage_mute_mem env t₃ acts₃
      rw [hau] at hmem
      have hres : res₇ = .ok () := by
        simp [ MODE_START_SERVICES, verifyLoop] at hvl
        exact hvl.1.symm
      refine ⟨hres, ?_, ?_⟩
      · exact cmdOK_mem a₇ (cmdOK_mem a₆ (cmdOK_mem a₅ hmem.1))
      · exact cmdOK_mem a₇ (cmdOK_mem a₆ (cmdOK_mem a₅ hmem.2))

/-! ### Lemma layer: corollaries for `set_media_mode` -/

theorem persist_mode_ghost (m : String) (s : AState) :
    (persist_mode m s).trace = s.trace ∧ (persist_mode m s).applyLog = s.applyLog ∧
    (persist_mode m s).now = s.now ∧ (persist_mode m s).pauseCalls = s.pauseCalls :=
  ⟨rfl, rfl, rfl, rfl⟩

theorem persist_last_error_ghost (e : String) (s : AState) :
    (persist_last_error e s).trace = s.trace ∧
    (persist_last_error e s).applyLog = s.applyLog ∧
    (persist_last_error e s).now = s.now ∧
    (persist_last_error e s).pauseCalls = s.pauseCalls :=
  ⟨rfl, rfl, rfl, rfl⟩

theorem persist_actions_ghost (a : List ActionEntry) (s : AState) :
    (persist_actions a s).trace = s.trace ∧ (persist_actions a s).applyLog = s.applyLog ∧
    (persist_actions a s).settings = s.settings ∧ (persist_actions a s).now = s.now ∧
    (persist_actions a s).pauseCalls = s.pauseCalls :=
  ⟨rfl, rfl, rfl, rfl, rfl⟩

theorem statusQuery_no_off (cfg : AConfig) :
    pairableOffCmd cfg ∉ statusQueryCmds cfg ∧
    discoverableOffCmd cfg ∉ statusQueryCmds cfg := by
  constructor <;> intro hmem <;>
    rcases List.mem_append.mp hmem with h | h
  · rcases List.mem_map.mp h with ⟨u, -, hequ⟩
    exact systemctlCmd_ne_pairableOff cfg u (by decide) hequ
  · simp only [List.mem_cons, List.not_mem_nil, or_false] at h
    rcases h with h | h | h
    · rw [pairableOffCmd_eq] at h; simp [wpctlGetVolumeCmd] at h
    · rw [pairableOffCmd_eq] at h; simp [pactlGetMuteCmd] at h
    · rw [pairableOffCmd_eq] at h; simp [btDevicesCmd, bluetoothctlCmd] at h
  · rcases List.mem_map.mp h with ⟨u, -, hequ⟩
    exact systemctlCmd_ne_discoverableOff cfg u (by decide) hequ
  · simp only [List.mem_cons, List.not_mem_nil, or_false] at h
    rcases h with h | h | h
    · rw [discoverableOffCmd_eq] at h; simp [wpctlGetVolumeCmd] at h
    · rw [discoverableOffCmd_eq] at h; simp [pactlGetMuteCmd] at h
    · rw [discoverableOffCmd_eq] at h; simp [btDevicesCmd, bluetoothctlCmd] at h

theorem get_status_true_ok (env : AEnv) (cfg : AConfig) {s : AState} {n : Int}
    (h : statusTsParse s.settings = .ok n) :
    ∃ p s', get_media_mode_status env cfg true s = (.ok p, s') ∧
      CmdOK (statusQueryCmds cfg) s s' ∧
      p.mode = current_mode s.settings ∧ p.noop = false ∧ p.ensured = false ∧
      p.last_switch_ts = n ∧
      p.last_error = pyStrip (get_setting s.settings SETTING_LAST_ERROR "") := by
  rw [get_status_refresh]
  exact statusFresh_ok_spec env cfg h

theorem get_status_state_pres (env : AEnv) (cfg : AConfig) (s : AState) :
    (get_media_mode_status env cfg true s).2.applyLog = s.applyLog ∧
    (get_media_mode_status env cfg true s).2.settings = s.settings ∧
    (get_media_mode_status env cfg true s).2.now = s.now ∧
    (get_media_mode_status env cfg true s).2.pauseCalls = s.pauseCalls ∧
    ∃ δ, (get_media_mode_status env cfg true s).2.trace = s.trace ++ δ ∧
      ∀ c ∈ δ, c ∈ statusQueryCmds cfg := by
  rw [get_status_refresh]
  cases h : statusTsParse s.settings with
  | error e =>
    rw [statusFresh_err env cfg h]
    exact ⟨rfl, rfl, rfl, rfl, [], by simp, by simp⟩
  | ok n =>
    obtain ⟨p, s', heq, hcmd, -⟩ := statusFresh_ok_spec env cfg h
    rw [heq]
    exact ⟨hcmd.2.1, hcmd.1, hcmd.2.2.2.2.1, hcmd.2.2.2.1, hcmd.2.2.2.2.2⟩

theorem set_media_mode_switch_eq (env : AEnv) (cfg : AConfig) (m : String)
    (cb : Option CbBeh) (force : Bool) (s : AState)
    (hv : VALID_MEDIA_MODES.contains (pyLower (pyStrip m)) = true)
    (hcur : current_mode s.settings ≠ pyLower (pyStrip m)) :
    set_media_mode env cfg m cb force s =
      switchPath env cfg (pyLower (pyStrip m)) (current_mode s.settings) cb s := by
  have h1 : ¬((!VALID_MEDIA_MODES.contains (pyLower (pyStrip m))) = true) := by
    rw [hv]; simp
  have h2 : ¬((current_mode s.settings = pyLower (pyStrip m) && !force) = true) := by
    simp [hcur]
  have h3 : ¬((current_mode s.settings = pyLower (pyStrip m) && force) = true) := by
    simp [hcur]
  simp only [set_media_mode]
  rw [if_neg h1, if_neg h2, if_neg h3]

theorem set_media_mode_noop_eq (env : AEnv) (cfg : AConfig) (m : String)
    (cb : Option CbBeh) (s : AState)
    (hv : VALID_MEDIA_MODES.contains (pyLower (pyStrip m)) = true)
    (hcur : current_mode s.settings = pyLower (pyStrip m)) :
    set_media_mode env cfg m cb false s =
      (match get_media_mode_status env cfg true (persist_last_error "" s) with
       | (.error e, s₂) => (.error e, s₂)
       | (.ok p, s₂) =>
         (.ok { ok := true, mode := current_mode s.settings,
                status := { p with noop := true } }, s₂)) := by
  have h1 : ¬((!VALID_MEDIA_MODES.contains (pyLower (pyStrip m))) = true) := by
    rw [hv]; simp
  have h2 : ((current_mode s.settings = pyLower (pyStrip m) && !false) = true) := by
    simp [hcur]
  simp only [set_media_mode]
  rw [if_neg h1, if_pos h2]

/-- Shared helper: `_current_mode` always lands in the valid mode list. -/
theorem current_mode_contains (st : List (String × String)) :
    VALID_MEDIA_MODES.contains (current_mode st) = true := by
  simp only [current_mode]
  by_cases h : VALID_MEDIA_MODES.contains
      (pyLower (pyStrip (get_setting st SETTING_MEDIA_MODE ""))) = true
  · rw [if_pos h]; exact h
  · rw [if_neg h]
    split <;> split <;> decide

theorem apply_mode_mute_ok (env : AEnv) (cfg : AConfig) (prev : String)
    (cb : Option CbBeh) (s : AState) (acts : List ActionEntry) :
    ∃ acts' s', apply_mode env cfg "mute" prev cb s acts = (.ok (), acts', s') := by
  obtain ⟨res, a, t, heq, -, -, -, -, -, -, -, -, -, -, hm⟩ :=
    apply_mode_spec env cfg "mute" prev cb s acts (by decide)
  obtain ⟨hr, -, -⟩ := hm rfl
  rw [hr] at heq
  exact ⟨a, t, heq⟩

theorem switchPath_ok_eq (env : AEnv) (cfg : AConfig) (t current : String)
    (cb : Option CbBeh) (s : AState) {u : Unit} {acts₂ : List ActionEntry}
    {s₂ : AState}
    (happ : apply_mode env cfg t current cb (persist_last_error "" s) [] =
      (.ok u, acts₂, s₂)) :
    switchPath env cfg t current cb s =
      (match get_media_mode_status env cfg true
          { persist_last_error "" (persist_actions acts₂ (persist_mode t s₂)) with
            statusCacheTs := 0 } with
       | (.error e, s₅) => (.error e, s₅)
       | (.ok p, s₅) => (.ok { ok := true, mode := t, status := p }, s₅)) := by
  simp only [switchPath, happ]

theorem switchPath_error_eq (env : AEnv) (cfg : AConfig) (t current : String)
    (cb : Option CbBeh) (s : AState) {e : String} {acts₂ : List ActionEntry}
    {s₂ : AState} (hmute : t ≠ "mute")
    (happ : apply_mode env cfg t current cb (persist_last_error "" s) [] =
      (.error e, acts₂, s₂))
    {acts₃ : List ActionEntry} {s₃ : AState}
    (hfb : apply_mode env cfg "mute" t none s₂ (acts₂ ++ [.switchError e]) =
      (.ok (), acts₃, s₃)) :
    switchPath env cfg t current cb s =
      (match get_media_mode_status env cfg true
          { persist_last_error e (persist_actions acts₃ (persist_mode "mute" s₃)) with
            statusCacheTs := 0 } with
       | (.error e₂, s₅) => (.error e₂, s₅)
       | (.ok p, s₅) =>
         (.ok { ok := false, error := some e, mode := "mute", status := p }, s₅)) := by
  simp only [switchPath, happ]
  rw [if_pos hmute]
  simp only [hfb]
  simp

theorem switchPath_mute_error_eq (env : AEnv) (cfg : AConfig) (current : String)
    (cb : Option CbBeh) (s : AState) {e : String} {acts₂ : List ActionEntry}
    {s₂ : AState}
    (happ : apply_mode env cfg "mute" current cb (persist_last_error "" s) [] =
      (.error e, acts₂, s₂)) :
    switchPath env cfg "mute" current cb s =
      (match get_media_mode_status env cfg true
          { persist_last_error e
              (persist_actions (acts₂ ++ [.switchError e]) s₂) with
            statusCacheTs := 0 } with
       | (.error e₂, s₅) => (.error e₂, s₅)
       | (.ok p, s₅) =>
         (.ok { ok := false, error := some e,
                mode := current_mode (persist_last_error e
                  (persist_actions (acts₂ ++ [.switchError e]) s₂)).settings,
                status := p }, s₅)) := by
  simp only [switchPath, happ]
  rw [if_neg (by simp)]
  simp

/-- A status refresh issues only read-only commands, so it leaves the
occurrence count of any non-status command unchanged. -/
theorem get_status_count_off (env : AEnv) (cfg : AConfig) (S : AState)
    (c : List String) (hc : c ∉ statusQueryCmds cfg) :
    (get_media_mode_status env cfg true S).2.trace.count c = S.trace.count c := by
  obtain ⟨-, -, -, -, δ, htr, hδ⟩ := get_status_state_pres env cfg S
  rw [htr, List.count_append]
  rw [List.count_eq_zero.mpr (fun hm => hc (hδ _ hm))]
  exact Nat.add_zero _

/-! ### Lemma layer: Spotify client cache frame and fetch outcomes -/

theorem spFrame_refl (s : SpState) : SpFrame s s := ⟨rfl, rfl⟩

theorem spFrame_trans {s s₁ s₂ : SpState} (a : SpFrame s s₁) (b : SpFrame s₁ s₂) :
    SpFrame s s₂ := ⟨b.1.trans a.1, b.2.trans a.2⟩

theorem httpCall_frame (env : HEnv) (ep : String) (s : SpState) :
    SpFrame s (httpCall env ep s).2 := ⟨rfl, rfl⟩

theorem enter_cooldown_frame (cfg : SpConfig) (ra : Nat) (s : SpState) :
    SpFrame s (enter_cooldown cfg ra s).2 := ⟨rfl, rfl⟩

theorem refresh_access_token_frame (env : HEnv) (cfg : SpConfig) (s : SpState) :
    SpFrame s (refresh_access_token env cfg s).2 := by
  simp only [refresh_access_token]
  split
  · exact spFrame_refl s
  · rcases ho : httpCall env "token" s with ⟨o, s₁⟩
    have h₁ : SpFrame s s₁ := by
      have h := httpCall_frame env "token" s
      rw [ho] at h; exact h
    simp only [ho]
    split
    · split
      · exact h₁
      · exact h₁
    · split
      · exact h₁
      · exact h₁

theorem get_access_token_frame (env : HEnv) (cfg : SpConfig) (s : SpState) :
    SpFrame s (get_access_token env cfg s).2 := by
  simp only [get_access_token]
  split
  · exact spFrame_refl s
  · rcases hr : refresh_access_token env cfg s with ⟨⟨b, er⟩, s₁⟩
    have h₁ : SpFrame s s₁ := by
      have h := refresh_access_token_frame env cfg s
      rw [hr] at h; exact h
    cases b
    · simp only [hr]; exact h₁
    · simp only [hr]; exact h₁

theorem api_get_frame (env : HEnv) (cfg : SpConfig) (path : String)
    (retry401 : Bool) (s : SpState) :
    SpFrame s (api_get env cfg path retry401 s).2 := by
  simp only [api_get]
  split
  · exact spFrame_refl s
  · rcases hg : get_access_token env cfg s with ⟨⟨tok, terr⟩, s₁⟩
    have h₁ : SpFrame s s₁ := by
      have h := get_access_token_frame env cfg s
      rw [hg] at h; exact h
    cases tok with
    | none => simp only [hg]; exact h₁
    | some t =>
      simp only [hg]
      rcases ho : httpCall env path s₁ with ⟨o, s₂⟩
      have h₂ : SpFrame s s₂ := spFrame_trans h₁ (by
        have h := httpCall_frame env path s₁
        rw [ho] at h; exact h)
      simp only [ho]
      by_cases h429 : o.status = 429
      · rw [if_pos h429]
        rcases hec : enter_cooldown cfg (parse_retry_after o.retryAfterRaw) s₂
          with ⟨w, sc⟩
        have h₃ : SpFrame s sc := spFrame_trans h₂ (by
          have h := enter_cooldown_frame cfg (parse_retry_after o.retryAfterRaw) s₂
          rw [hec] at h; exact h)
        simp only [hec]
        split
        · rcases hg2 : get_access_token env cfg
              { sc with access_token := "", access_token_expires_at := 0 }
            with ⟨⟨tok₂, terr₂⟩, s₅⟩
          have h₅ : SpFrame s s₅ := spFrame_trans h₃ (by
            have h := get_access_token_frame env cfg
              { sc with access_token := "", access_token_expires_at := 0 }
            rw [hg2] at h; exact h)
          cases tok₂ with
          | none => simp only [hg2]; exact h₅
          | some t₂ =>
            simp only [hg2]
            rcases ho2 : httpCall env path s₅ with ⟨o₂, s₆⟩
            have h₆ : SpFrame s s₆ := spFrame_trans h₅ (by
              have h := httpCall_frame env path s₅
              rw [ho2] at h; exact h)
            simp only [ho2]
            by_cases h429b : o₂.status = 429
            · rw [if_pos h429b]
              rcases hec2 : enter_cooldown cfg (parse_retry_after o₂.retryAfterRaw) s₆
                with ⟨w₂, s₇⟩
              have h₇ : SpFrame s s₇ := spFrame_trans h₆ (by
                have h := enter_cooldown_frame cfg (parse_retry_after o₂.retryAfterRaw) s₆
                rw [hec2] at h; exact h)
              simp only [hec2]
              exact h₇
            · rw [if_neg h429b]
              exact h₆
        · exact h₃
      · rw [if_neg h429]
        split
        · rcases hg2 : get_access_token env cfg
              { s₂ with access_token := "", access_token_expires_at := 0 }
            with ⟨⟨tok₂, terr₂⟩, s₅⟩
          have h₅ : SpFrame s s₅ := spFrame_trans h₂ (by
            have h := get_access_token_frame env cfg
              { s₂ with access_token := "", access_token_expires_at := 0 }
            rw [hg2] at h; exact h)
          cases tok₂ with
          | none => simp only [hg2]; exact h₅
          | some t₂ =>
            simp only [hg2]
            rcases ho2 : httpCall env path s₅ with ⟨o₂, s₆⟩
            have h₆ : SpFrame s s₆ := spFrame_trans h₅ (by
              have h := httpCall_frame env path s₅
              rw [ho2] at h; exact h)
            simp only [ho2]
            by_cases h429b : o₂.status = 429
            · rw [if_pos h429b]
              rcases hec2 : enter_cooldown cfg (parse_retry_after o₂.retryAfterRaw) s₆
                with ⟨w₂, s₇⟩
              have h₇ : SpFrame s s₇ := spFrame_trans h₆ (by
                have h := enter_cooldown_frame cfg (parse_retry_after o₂.retryAfterRaw) s₆
                rw [hec2] at h; exact h)
              simp only [hec2]
              exact h₇
            · rw [if_neg h429b]
              exact h₆
        · exact h₂

theorem get_me_frame (env : HEnv) (cfg : SpConfig) (s : SpState) :
    SpFrame s (get_me env cfg s).2 := by
  simp only [get_me]
  split
  · exact spFrame_refl s
  · rcases ha : api_get env cfg "/me" true s with ⟨⟨st, pay, er⟩, s₁⟩
    have h₁ : SpFrame s s₁ := by
      have h := api_get_frame env cfg "/me" true s
      rw [ha] at h; exact h
    simp only [ha]
    split
    · exact h₁
    · exact h₁

theorem finishPlayer_snd (cfg : SpConfig) (me payl : Option SpPayload)
    (s : SpState) : (finishPlayer cfg me payl s).2 = s := by
  cases payl with
  | none => rfl
  | some p =>
    simp only [finishPlayer]
    split
    · rfl
    · rfl

theorem fetch_live_state_frame (env : HEnv) (cfg : SpConfig) (s : SpState) :
    SpFrame s (fetch_live_state env cfg s).2 := by
  simp only [fetch_live_state]
  rcases hm : get_me env cfg s with ⟨me, s₁⟩
  have h₁ : SpFrame s s₁ := by
    have h := get_me_frame env cfg s
    rw [hm] at h; exact h
  simp only [hm]
  rcases ha : api_get env cfg "/me/player" true s₁ with ⟨⟨st, payl, er⟩, s₂⟩
  have h₂ : SpFrame s s₂ := spFrame_trans h₁ (by
    have h := api_get_frame env cfg "/me/player" true s₁
    rw [ha] at h; exact h)
  simp only [ha]
  split
  · exact h₂
  · split
    · exact h₂
    · split
      · rcases hb : api_get env cfg "/me/player/currently-playing" true s₂
          with ⟨⟨st₂, payl₂, er₂⟩, s₃⟩
        have h₃ : SpFrame s s₃ := spFrame_trans h₂ (by
          have h := api_get_frame env cfg "/me/player/currently-playing" true s₂
          rw [hb] at h; exact h)
        simp only [hb]
        split
        · exact h₃
        · split
          · exact h₃
          · split
            · exact h₃
            · have h := finishPlayer_snd cfg me payl₂ s₃
              rw [h]; exact h₃
      · have h := finishPlayer_snd cfg me payl s₂
        rw [h]; exact h₂

theorem acctAdd_fields (me : Option SpPayload) (out : Snapshot) :
    (acctAdd me out).state = out.state ∧ (acctAdd me out).ok = out.ok := by
  cases me with
  | none => exact ⟨rfl, rfl⟩
  | some p =>
    simp only [acctAdd]
    split
    · exact ⟨rfl, rfl⟩
    · exact ⟨rfl, rfl⟩

theorem finishPlayer_fail (cfg : SpConfig) (me payl : Option SpPayload)
    (s : SpState) : (finishPlayer cfg me payl s).1.ok = false →
    (finishPlayer cfg me payl s).1.state = "error" := by
  cases payl with
  | none => intro h; rfl
  | some p =>
    simp only [finishPlayer]
    split
    · intro h
      have hok := (acctAdd_fields me (empty_state s.now true "inactive")).2
      rw [hok] at h
      simp [empty_state] at h
    · intro h
      rw [(acctAdd_fields me _).2] at h
      simp at h

theorem fetch_live_state_fail_state (env : HEnv) (cfg : SpConfig) (s : SpState) :
    (fetch_live_state env cfg s).1.ok = false →
    (fetch_live_state env cfg s).1.state = "cooldown" ∨
    (fetch_live_state env cfg s).1.state = "error" := by
  simp only [fetch_live_state]
  rcases hm : get_me env cfg s with ⟨me, s₁⟩
  simp only [hm]
  rcases ha : api_get env cfg "/me/player" true s₁ with ⟨⟨st, payl, er⟩, s₂⟩
  simp only [ha]
  split
  · intro h
    rw [(acctAdd_fields me _).2] at h
    simp [empty_state] at h
  · split
    · intro h
      left
      have hs := (acctAdd_fields me (empty_state s₂.now false "cooldown"
        (if er ≠ "" then er else "Too Many Requests"))).1
      exact hs
    · split
      · rcases hb : api_get env cfg "/me/player/currently-playing" true s₂
          with ⟨⟨st₂, payl₂, er₂⟩, s₃⟩
        simp only [hb]
        split
        · intro h
          rw [(acctAdd_fields me _).2] at h
          simp [empty_state] at h
        · split
          · intro h
            left
            exact (acctAdd_fields me _).1
          · split
            · intro h
              right
              rfl
            · intro h
              right
              exact finishPlayer_fail cfg me payl₂ s₃ h
      · intro h
        right
        exact finishPlayer_fail cfg me payl s₂ h

/-- Once the disabled, cooldown, no-fetch and fresh-cache guards are all
down, `get_state` runs a live fetch and rewrites the cache in one of two
ways. -/
theorem get_state_fetch_eq (env : HEnv) (cfg : SpConfig) (force : Bool)
    (s : SpState) (hen : cfg.enabled = true) (hcd0 : cooldown_remaining s = 0)
    (hfresh : (!force && s.cache_state.isSome &&
      decide (s.now - s.cache_ts < cfg.cache_seconds)) = false)
    {st : Snapshot} {s₁ : SpState}
    (hf : fetch_live_state env cfg s = (st, s₁)) :
    get_state env cfg force true s =
      if !st.ok && ({ s₁ with last_fetch_ts := s.now } : SpState).cache_state.isSome
      then
        (decorate
          { { s₁ with last_fetch_ts := s.now } with
            cache_state := some (staleOf st { s₁ with last_fetch_ts := s.now }),
            cache_ts := s.now }
          (staleOf st { s₁ with last_fetch_ts := s.now }) true,
         { { s₁ with last_fetch_ts := s.now } with
           cache_state := some (staleOf st { s₁ with last_fetch_ts := s.now }),
           cache_ts := s.now })
      else
        (decorate { { s₁ with last_fetch_ts := s.now } with
            cache_state := some st, cache_ts := s.now } st false,
         { { s₁ with last_fetch_ts := s.now } with
           cache_state := some st, cache_ts := s.now }) := by
  simp only [get_state]
  rw [if_neg (by rw [hen]; simp)]
  rw [if_neg (by simp [hcd0])]
  rw [if_neg (by simp)]
  rw [if_neg (by rw [hfresh]; simp)]
  rw [hf]
  rfl

theorem staleOf_some (st : Snapshot) {c : Snapshot} {s₂ : SpState}
    (h : s₂.cache_state = some c) :
    (staleOf st s₂).track = c.track ∧ (staleOf st s₂).device = c.device ∧
    (staleOf st s₂).state =
      (if cooldown_remaining s₂ > 0 then "cooldown"
       else if st.state = "" then "error" else st.state) := by
  refine ⟨?_, ?_, ?_⟩ <;> simp [staleOf, h]

/-! ### Claim theorems -/

/-- Claim C10: whatever string is persisted under the media-mode setting —
empty, unknown, or corrupted — `_current_mode` returns one of the six valid
modes; an invalid persisted string falls back to the legacy `av_mode`
setting, mapping `"spotify"` to spotify and everything else to
`"partybox"`. -/
theorem C10_current_mode_valid (st : List (String × String)) :
    current_mode st ∈ VALID_MEDIA_MODES ∧
    (VALID_MEDIA_MODES.contains
        (pyLower (pyStrip (get_setting st SETTING_MEDIA_MODE ""))) = false →
      current_mode st =
        (if pyLower (pyStrip (if get_setting st "av_mode" "partybox" = "" then
            "partybox" else get_setting st "av_mode" "partybox")) = "spotify"
         then "spotify" else "partybox")) := by
  constructor
  · have h := current_mode_contains st
    exact List.mem_of_elem_eq_true h
  · intro hf
    simp only [current_mode]
    rw [if_neg (by rw [hf]; simp)]

theorem C10_witness :
    current_mode [("media_mode", "garbage"), ("av_mode", "SPOTIFY")] ∈
      VALID_MEDIA_MODES ∧
    current_mode [("media_mode", "garbage"), ("av_mode", "SPOTIFY")] = "spotify" := by
  have h := C10_current_mode_valid [("media_mode", "garbage"), ("av_mode", "SPOTIFY")]
  exact ⟨h.1, (h.2 (by decide)).trans (by decide)⟩

/-- Claim C9 (code bug exhibit): the claim says neither component raises
across its public boundary, but the `int(...)` parse of the persisted
switch timestamp in `get_media_mode_status` is unguarded: with the setting
`media_mode_last_switch_ts = "oops"` both `get_media_mode_status` and the
no-op path of `set_media_mode` raise `ValueError` (modelled as `.error`)
instead of returning a structured result. -/
theorem C9_unguarded_int_raises :
    (get_media_mode_status (fun _ => .completed 0 "" "" 0) {} true
       { settings := [("media_mode", "partybox"),
                      ("media_mode_last_switch_ts", "oops")], now := 0 }).1 =
      .error ("invalid literal for int with base 10: oops") ∧
    (set_media_mode (fun _ => .completed 0 "" "" 0) {} "partybox" none false
       { settings := [("media_mode", "partybox"),
                      ("media_mode_last_switch_ts", "oops")], now := 0 }).1 =
      .error ("invalid literal for int with base 10: oops") := by
  constructor <;> rfl

/-- Claim C3 counterexample: on the no-op path (`current == target`,
`force = false`) the code refreshes the status with `refresh=True`, which
does issue external commands (`systemctl is-active`, mixer readback), so
"no infrastructure (external command) calls" is false as stated. -/
theorem C3_counterexample :
    current_mode sC3.settings = pyLower (pyStrip "partybox") ∧
    (set_media_mode envC3 {} "partybox" none false sC3).2.trace ≠ sC3.trace := by
  constructor <;> decide

/-- Claim C3 (amended): when the current mode equals the target and `force`
is false, `set_media_mode` is a no-op returning success with `noop=true`,
clears the persisted last-error, and issues no state-changing infrastructure
commands — every command issued belongs to the read-only status-refresh set
(per-unit `is-active`, mixer readback, connected-device listing); hence a
second consecutive call with `force=false` issues only such read-only
queries. -/
theorem C3_noop_readonly (env : AEnv) (cfg : AConfig) (m : String)
    (cb : Option CbBeh) (s : AState) {n : Int}
    (hcur : pyLower (pyStrip m) = current_mode s.settings)
    (hts : statusTsParse s.settings = .ok n) :
    ∃ out s', set_media_mode env cfg m cb false s = (.ok out, s') ∧
      out.ok = true ∧ out.status.noop = true ∧ out.mode = current_mode s.settings ∧
      out.error = none ∧
      get_setting s'.settings SETTING_LAST_ERROR "" = "" ∧
      ∃ δ, s'.trace = s.trace ++ δ ∧ ∀ c ∈ δ, c ∈ statusQueryCmds cfg := by
  have hv : VALID_MEDIA_MODES.contains (pyLower (pyStrip m)) = true := by
    rw [hcur]; exact current_mode_contains s.settings
  rw [set_media_mode_noop_eq env cfg m cb s hv hcur.symm]
  have hts₁ : statusTsParse (persist_last_error "" s).settings = .ok n := by
    rw [statusTsParse_persist_last_error]; exact hts
  obtain ⟨p, s', heq, hcmd, hmode, hnoop, hens, hlts, hlerr⟩ :=
    get_status_true_ok env cfg hts₁
  rw [heq]
  refine ⟨_, s', rfl, rfl, rfl, rfl, rfl, ?_, ?_⟩
  · rw [hcmd.1, persist_last_error_last_error]; rfl
  · obtain ⟨-, -, -, -, -, δ, htr, hδ⟩ := hcmd
    exact ⟨δ, by rw [htr]; rfl, hδ⟩

theorem C3_noop_readonly_witness :
    ∃ out s', set_media_mode envC3 {} "partybox" none false sC3 = (.ok out, s') ∧
      out.ok = true ∧ out.status.noop = true ∧
      out.mode = current_mode sC3.settings ∧ out.error = none ∧
      get_setting s'.settings SETTING_LAST_ERROR "" = "" ∧
      ∃ δ, s'.trace = sC3.trace ++ δ ∧ ∀ c ∈ δ, c ∈ statusQueryCmds {} :=
  C3_noop_readonly envC3 {} "partybox" none sC3 (n := 0) (by decide) (by rfl)

/-- Claim C2: on every full switch (`current ≠ target`) for which
`set_media_mode` reports success (`ok = true`), every managed service that
is outside the target mode's owning service set received a `systemctl stop`
attempt during the call — the stop command for it appears in the trace of
issued external commands (a tolerated "not loaded" failure still issues the
command, so it still counts as an attempt). -/
theorem C2_stop_exclusivity (env : AEnv) (cfg : AConfig) (m : String)
    (cb : Option CbBeh) (force : Bool) (s : AState)
    (hcur : current_mode s.settings ≠ pyLower (pyStrip m))
    (hok : outOk (set_media_mode env cfg m cb force s).1 = true) :
    ∀ u ∈ MANAGED_MODE_SERVICES, u ∉ MODE_START_SERVICES (pyLower (pyStrip m)) →
      systemctlCmd cfg "stop" u ∈ (set_media_mode env cfg m cb force s).2.trace := by
  by_cases hv : VALID_MEDIA_MODES.contains (pyLower (pyStrip m)) = true
  case neg =>
    exfalso
    have h1 : (!VALID_MEDIA_MODES.contains (pyLower (pyStrip m))) = true := by
      cases hcb : VALID_MEDIA_MODES.contains (pyLower (pyStrip m)) with
      | true => exact absurd hcb hv
      | false => rfl
    simp only [set_media_mode] at hok
    rw [if_pos h1] at hok
    rcases hst : get_media_mode_status env cfg true s with ⟨rp, s₁⟩
    rw [hst] at hok
    cases rp with
    | error e => simp [outOk] at hok
    | ok p => simp [outOk] at hok
  case pos =>
  intro u hu hnotu
  have hufilter : u ∈ stopUnits (pyLower (pyStrip m)) := by
    have hc : (MODE_START_SERVICES (pyLower (pyStrip m))).contains u = false := by
      cases hc : (MODE_START_SERVICES (pyLower (pyStrip m))).contains u with
      | false => rfl
      | true => exact absurd (List.mem_of_elem_eq_true hc) hnotu
    simp [stopUnits, List.mem_filter, hu, hnotu]
  rw [set_media_mode_switch_eq env cfg m cb force s hv hcur] at hok ⊢
  rcases happ : apply_mode env cfg (pyLower (pyStrip m)) (current_mode s.settings)
      cb (persist_last_error "" s) [] with ⟨res, acts₂, s₂⟩
  obtain ⟨res₀, a₀, t₀, heq, -, -, -, -, -, hstop, -, -, -, -, -⟩ :=
    apply_mode_spec env cfg (pyLower (pyStrip m)) (current_mode s.settings)
      cb (persist_last_error "" s) [] hv
  rw [happ] at heq
  injection heq with h1 hrest
  injection hrest with h2 h3
  subst h1; subst h2; subst h3
  cases res with
  | ok uu =>
    rw [switchPath_ok_eq env cfg (pyLower (pyStrip m)) (current_mode s.settings)
        cb s happ] at hok ⊢
    rcases hst : get_media_mode_status env cfg true
        { persist_last_error ""
            (persist_actions acts₂ (persist_mode (pyLower (pyStrip m)) s₂)) with
          statusCacheTs := 0 } with ⟨rp, s₅⟩
    obtain ⟨-, -, -, -, δ, htr, -⟩ := get_status_state_pres env cfg
        { persist_last_error ""
            (persist_actions acts₂ (persist_mode (pyLower (pyStrip m)) s₂)) with
          statusCacheTs := 0 }
    rw [hst] at hok htr
    cases rp with
    | error e => simp [outOk] at hok
    | ok p =>
      have htr2 : s₅.trace = s₂.trace ++ δ := htr
      show systemctlCmd cfg "stop" u ∈ s₅.trace
      rw [htr2]
      exact List.mem_append_left δ (hstop u hufilter)
  | error e =>
    by_cases ht : pyLower (pyStrip m) = "mute"
    · exfalso
      obtain ⟨a₃, s₃, hmute⟩ := apply_mode_mute_ok env cfg
        (current_mode s.settings) cb (persist_last_error "" s) []
      rw [ht] at happ
      rw [happ] at hmute
      simp at hmute
    · obtain ⟨a₃, s₃, hfb⟩ := apply_mode_mute_ok env cfg (pyLower (pyStrip m))
        none s₂ (acts₂ ++ [.switchError e])
      rw [switchPath_error_eq env cfg (pyLower (pyStrip m))
          (current_mode s.settings) cb s ht happ hfb] at hok ⊢
      rcases hst : get_media_mode_status env cfg true
          { persist_last_error e
              (persist_actions a₃ (persist_mode "mute" s₃)) with
            statusCacheTs := 0 } with ⟨rp, s₅⟩
      rw [hst] at hok
      cases rp with
      | error e₂ => simp [outOk] at hok
      | ok p => simp [outOk] at hok

theorem C2_witness :
    current_mode sC2.settings ≠ pyLower (pyStrip "tv") ∧
    outOk (set_media_mode envC2 {} "tv" none false sC2).1 = true ∧
    systemctlCmd {} "stop" "librespot.service" ∈
      (set_media_mode envC2 {} "tv" none false sC2).2.trace :=
  ⟨by decide, by rfl,
   C2_stop_exclusivity envC2 {} "tv" none false sC2 (by decide) (by rfl)
     "librespot.service" (by decide) (by decide)⟩

/-- Claim C6: whenever the mode being left is the Bluetooth-receiver mode
and the (valid) target differs from it, the `bluetoothctl pairable off` and
`bluetoothctl discoverable off` commands are each issued exactly once over
the entire `set_media_mode` call — the trace count of each grows by exactly
one, whichever target mode is chosen and also when the switch fails and a
fallback to the silent mode runs. -/
theorem C6_bt_teardown_once (env : AEnv) (cfg : AConfig) (m : String)
    (cb : Option CbBeh) (force : Bool) (s : AState)
    (hprev : current_mode s.settings = "bluetooth")
    (hv : VALID_MEDIA_MODES.contains (pyLower (pyStrip m)) = true)
    (hne : pyLower (pyStrip m) ≠ "bluetooth") :
    (set_media_mode env cfg m cb force s).2.trace.count (pairableOffCmd cfg) =
      s.trace.count (pairableOffCmd cfg) + 1 ∧
    (set_media_mode env cfg m cb force s).2.trace.count (discoverableOffCmd cfg) =
      s.trace.count (discoverableOffCmd cfg) + 1 := by
  have hcur : current_mode s.settings ≠ pyLower (pyStrip m) := by
    rw [hprev]; exact fun h => hne h.symm
  rw [set_media_mode_switch_eq env cfg m cb force s hv hcur]
  rcases happ : apply_mode env cfg (pyLower (pyStrip m)) (current_mode s.settings)
      cb (persist_last_error "" s) [] with ⟨res, acts₂, s₂⟩
  obtain ⟨res₀, a₀, t₀, heq, -, -, -, -, -, -, hcp, hcd, -, -, -⟩ :=
    apply_mode_spec env cfg (pyLower (pyStrip m)) (current_mode s.settings)
      cb (persist_last_error "" s) [] hv
  rw [happ] at heq
  injection heq with h1 hrest
  injection hrest with h2 h3
  subst h1; subst h2; subst h3
  have hone : (if current_mode s.settings = "bluetooth" &&
      pyLower (pyStrip m) ≠ "bluetooth" then 1 else 0) = 1 := by
    simp [hprev, hne]
  rw [hone] at hcp hcd
  have hcp₂ : s₂.trace.count (pairableOffCmd cfg) =
      s.trace.count (pairableOffCmd cfg) + 1 := hcp
  have hcd₂ : s₂.trace.count (discoverableOffCmd cfg) =
      s.trace.count (discoverableOffCmd cfg) + 1 := hcd
  cases res with
  | ok uu =>
    rw [switchPath_ok_eq env cfg (pyLower (pyStrip m)) (current_mode s.settings)
        cb s happ]
    rcases hst : get_media_mode_status env cfg true
        { persist_last_error ""
            (persist_actions acts₂ (persist_mode (pyLower (pyStrip m)) s₂)) with
          statusCacheTs := 0 } with ⟨rp, s₅⟩
    have hc₅p := get_status_count_off env cfg
        { persist_last_error ""
            (persist_actions acts₂ (persist_mode (pyLower (pyStrip m)) s₂)) with
          statusCacheTs := 0 } (pairableOffCmd cfg) (statusQuery_no_off cfg).1
    have hc₅d := get_status_count_off env cfg
        { persist_last_error ""
            (persist_actions acts₂ (persist_mode (pyLower (pyStrip m)) s₂)) with
          statusCacheTs := 0 } (discoverableOffCmd cfg) (statusQuery_no_off cfg).2
    rw [hst] at hc₅p hc₅d
    have hp5 : s₅.trace.count (pairableOffCmd cfg) =
        s₂.trace.count (pairableOffCmd cfg) := hc₅p
    have hd5 : s₅.trace.count (discoverableOffCmd cfg) =
        s₂.trace.count (discoverableOffCmd cfg) := hc₅d
    cases rp with
    | error e => exact ⟨hp5.trans hcp₂, hd5.trans hcd₂⟩
    | ok p => exact ⟨hp5.trans hcp₂, hd5.trans hcd₂⟩
  | error e =>
    by_cases ht : pyLower (pyStrip m) = "mute"
    · exfalso
      obtain ⟨a₃, s₃, hmute⟩ := apply_mode_mute_ok env cfg
        (current_mode s.settings) cb (persist_last_error "" s) []
      rw [ht] at happ
      rw [happ] at hmute
      simp at hmute
    · obtain ⟨resF, aF, tF, heqF, -, -, -, -, -, -, hcpF, hcdF, -, -, hmF⟩ :=
        apply_mode_spec env cfg "mute" (pyLower (pyStrip m)) none s₂
          (acts₂ ++ [.switchError e]) (by decide)
      obtain ⟨hrF, -, -⟩ := hmF rfl
      rw [hrF] at heqF
      have hzero : (if pyLower (pyStrip m) = "bluetooth" &&
          "mute" ≠ "bluetooth" then 1 else 0) = 0 := by
        simp [hne]
      rw [hzero, Nat.add_zero] at hcpF hcdF
      rw [switchPath_error_eq env cfg (pyLower (pyStrip m))
          (current_mode s.settings) cb s ht happ heqF]
      rcases hst : get_media_mode_status env cfg true
          { persist_last_error e (persist_actions aF (persist_mode "mute" tF)) with
            statusCacheTs := 0 } with ⟨rp, s₅⟩
      have hc₅p := get_status_count_off env cfg
          { persist_last_error e (persist_actions aF (persist_mode "mute" tF)) with
            statusCacheTs := 0 } (pairableOffCmd cfg) (statusQuery_no_off cfg).1
      have hc₅d := get_status_count_off env cfg
          { persist_last_error e (persist_actions aF (persist_mode "mute" tF)) with
            statusCacheTs := 0 } (discoverableOffCmd cfg) (statusQuery_no_off cfg).2
      rw [hst] at hc₅p hc₅d
      have hp5 : s₅.trace.count (pairableOffCmd cfg) =
          tF.trace.count (pairableOffCmd cfg) := hc₅p
      have hd5 : s₅.trace.count (discoverableOffCmd cfg) =
          tF.trace.count (discoverableOffCmd cfg) := hc₅d
      have hpF : tF.trace.count (pairableOffCmd cfg) =
          s.trace.count (pairableOffCmd cfg) + 1 := by rw [hcpF]; exact hcp₂
      have hdF : tF.trace.count (discoverableOffCmd cfg) =
          s.trace.count (discoverableOffCmd cfg) + 1 := by rw [hcdF]; exact hcd₂
      cases rp with
      | error e₂ => exact ⟨hp5.trans hpF, hd5.trans hdF⟩
      | ok p => exact ⟨hp5.trans hpF, hd5.trans hdF⟩

theorem C6_witness :
    current_mode sC6.settings = "bluetooth" ∧
    (set_media_mode envC6 {} "partybox" none false sC6).2.trace.count
      (pairableOffCmd {}) = sC6.trace.count (pairableOffCmd {}) + 1 ∧
    (set_media_mode envC6 {} "partybox" none false sC6).2.trace.count
      (discoverableOffCmd {}) = sC6.trace.count (discoverableOffCmd {}) + 1 := by
  have h := C6_bt_teardown_once envC6 {} "partybox" none false sC6
    (by decide) (by decide) (by decide)
  exact ⟨by decide, h.1, h.2⟩

/-- Claim C1: on the full switch path, if applying the target mode fails
(start or verification failure) then the target cannot have been the silent
mode `"mute"` (a `"mute"` application never fails, so for target `"mute"`
no fallback scenario exists and the mode is unchanged vacuously), and
exactly one fallback application of `"mute"` is attempted — the ghost apply
log grows by exactly the main application and the fallback application.
The fallback always succeeds: the call returns a structured result whose
mode is `"mute"` with the recorded error, the persisted media-mode setting
is `"mute"`, and the mute and volume-reduction audio commands were
issued. -/
theorem C1_fallback_to_mute (env : AEnv) (cfg : AConfig) (m : String)
    (cb : Option CbBeh) (force : Bool) (s : AState)
    (hv : VALID_MEDIA_MODES.contains (pyLower (pyStrip m)) = true)
    (hcur : current_mode s.settings ≠ pyLower (pyStrip m))
    (hnow : ∃ k, tsChain (toString s.now) = .ok k)
    {e : String} {acts₂ : List ActionEntry} {s₂ : AState}
    (hfail : apply_mode env cfg (pyLower (pyStrip m)) (current_mode s.settings)
      cb (persist_last_error "" s) [] = (.error e, acts₂, s₂)) :
    pyLower (pyStrip m) ≠ "mute" ∧
    ∃ out s', set_media_mode env cfg m cb force s = (.ok out, s') ∧
      out.ok = false ∧ out.error = some e ∧ out.mode = "mute" ∧
      s'.applyLog = s.applyLog ++
        [(pyLower (pyStrip m), current_mode s.settings),
         ("mute", pyLower (pyStrip m))] ∧
      get_setting s'.settings SETTING_MEDIA_MODE "" = "mute" ∧
      current_mode s'.settings = "mute" ∧
      wpctlMuteCmd true ∈ s'.trace ∧ wpctlVolumeCmd 35 ∈ s'.trace := by
  obtain ⟨k, hk⟩ := hnow
  have ht : pyLower (pyStrip m) ≠ "mute" := by
    intro hEq
    obtain ⟨a₃, s₃, hmute⟩ := apply_mode_mute_ok env cfg
      (current_mode s.settings) cb (persist_last_error "" s) []
    rw [hEq] at hfail
    rw [hfail] at hmute
    simp at hmute
  refine ⟨ht, ?_⟩
  obtain ⟨res₀, a₀, t₀, heq, hset₂, hlog₂0, -, hnow₂0, -, -, -, -, -, -, -⟩ :=
    apply_mode_spec env cfg (pyLower (pyStrip m)) (current_mode s.settings)
      cb (persist_last_error "" s) [] hv
  rw [hfail] at heq
  injection heq with h1 hrest
  injection hrest with h2 h3
  subst h2; subst h3
  obtain ⟨resF, aF, tF, heqF, hsetF, hlogF, -, hnowF, -, -, -, -, -, -, hmF⟩ :=
    apply_mode_spec env cfg "mute" (pyLower (pyStrip m)) none s₂
      (acts₂ ++ [.switchError e]) (by decide)
  obtain ⟨hrF, hmut, hvol⟩ := hmF rfl
  rw [hrF] at heqF
  rw [set_media_mode_switch_eq env cfg m cb force s hv hcur]
  rw [switchPath_error_eq env cfg (pyLower (pyStrip m))
      (current_mode s.settings) cb s ht hfail heqF]
  have hnowtF : tF.now = s.now := hnowF.trans hnow₂0
  have htseq : statusTsParse
      (persist_last_error e (persist_actions aF (persist_mode "mute" tF))).settings =
      tsChain (toString tF.now) :=
    (statusTsParse_persist_last_error e
      (persist_actions aF (persist_mode "mute" tF))).trans
      (statusTsParse_persist_mode "mute" tF)
  have hts : statusTsParse
      (persist_last_error e (persist_actions aF (persist_mode "mute" tF))).settings =
      .ok k := by
    rw [htseq, hnowtF]; exact hk
  obtain ⟨p, s₅, hstEq, hcmd, -, -, -, -, -⟩ :=
    get_status_true_ok env cfg
      (s := { persist_last_error e (persist_actions aF (persist_mode "mute" tF)) with
              statusCacheTs := 0 }) hts
  rw [hstEq]
  obtain ⟨hsetc, hlogc, -, -, -, δ, htrδ, -⟩ := hcmd
  have hlog₅ : s₅.applyLog = tF.applyLog := hlogc
  have hlog₂ : s₂.applyLog =
      s.applyLog ++ [(pyLower (pyStrip m), current_mode s.settings)] := hlog₂0
  have hset₅ : get_setting s₅.settings SETTING_MEDIA_MODE "" = "mute" := by
    rw [hsetc]
    have h₁ : get_setting
        (persist_actions aF (persist_mode "mute" tF)).settings
        SETTING_MEDIA_MODE "" = "mute" := persist_mode_media_mode "mute" tF ""
    exact (persist_last_error_media_mode e
      (persist_actions aF (persist_mode "mute" tF)) "").trans h₁
  have hcur₅ : current_mode s₅.settings = "mute" := by
    simp only [current_mode, hset₅]
    rw [if_pos (by decide :
      VALID_MEDIA_MODES.contains (pyLower (pyStrip "mute")) = true)]
    decide
  have htr₅ : s₅.trace = tF.trace ++ δ := htrδ
  refine ⟨_, s₅, rfl, rfl, rfl, rfl, ?_, hset₅, hcur₅, ?_, ?_⟩
  · rw [hlog₅, hlogF, hlog₂, List.append_assoc]
    rfl
  · rw [htr₅]; exact List.mem_append_left δ hmut
  · rw [htr₅]; exact List.mem_append_left δ hvol

theorem C1_witness :
    pyLower (pyStrip "spotify") ≠ "mute" ∧
    ∃ out s', set_media_mode envC1 {} "spotify" none false sC1 = (.ok out, s') ∧
      out.ok = false ∧
      out.error = some "failed to start librespot.service: start failed badly" ∧
      out.mode = "mute" ∧
      s'.applyLog = sC1.applyLog ++
        [(pyLower (pyStrip "spotify"), current_mode sC1.settings),
         ("mute", pyLower (pyStrip "spotify"))] ∧
      get_setting s'.settings SETTING_MEDIA_MODE "" = "mute" ∧
      current_mode s'.settings = "mute" ∧
      wpctlMuteCmd true ∈ s'.trace ∧ wpctlVolumeCmd 35 ∈ s'.trace :=
  C1_fallback_to_mute envC1 {} "spotify" none false sC1 (by decide) (by decide)
    ⟨100, by rfl⟩ (by rfl)

/-- Claim C7 counterexample: the claim says the pause callback fires
exactly when the mode being left actively streams audio, but the code keys
the callback on the **target** (`mode != "spotify"`): leaving `"mute"` — a
mode that streams nothing — for `"partybox"` with a callback supplied still
invokes the callback once. -/
theorem C7_counterexample :
    specActivelyStreamsAudio (current_mode sC7.settings) = false ∧
    (set_media_mode envC7 {} "partybox" (some (.ret true "")) false
      sC7).2.pauseCalls = sC7.pauseCalls + 1 := by
  constructor
  · decide
  · decide

/-- Claim C7 (amended): on the full switch path the pause callback is
invoked exactly when the **target** mode is not `"spotify"` and a callback
is supplied (`pauseCount` — not a predicate of the mode being left); its
outcome is the leading entry of the persisted action log; and a callback
that raises is handled identically to one returning failure — the whole
call computes the same result, so the switch is never aborted. -/
theorem C7_pause_keyed_on_target (env : AEnv) (cfg : AConfig) (m : String)
    (cb : Option CbBeh) (force : Bool) (s : AState) (msg : String)
    (hv : VALID_MEDIA_MODES.contains (pyLower (pyStrip m)) = true)
    (hcur : current_mode s.settings ≠ pyLower (pyStrip m))
    (hnow : ∃ k, tsChain (toString s.now) = .ok k) :
    (set_media_mode env cfg m cb force s).2.pauseCalls =
      s.pauseCalls + pauseCount (pyLower (pyStrip m)) cb ∧
    (∃ rest, (set_media_mode env cfg m cb force s).2.lastActionsStored =
      pauseActs (pyLower (pyStrip m)) cb ++ rest) ∧
    set_media_mode env cfg m (some (.raiseEx msg)) force s =
      set_media_mode env cfg m (some (.ret false msg)) force s := by
  obtain ⟨k, hk⟩ := hnow
  have hmain : (set_media_mode env cfg m cb force s).2.pauseCalls =
      s.pauseCalls + pauseCount (pyLower (pyStrip m)) cb ∧
      ∃ rest, (set_media_mode env cfg m cb force s).2.lastActionsStored =
        pauseActs (pyLower (pyStrip m)) cb ++ rest := by
    rw [set_media_mode_switch_eq env cfg m cb force s hv hcur]
    rcases happ : apply_mode env cfg (pyLower (pyStrip m))
        (current_mode s.settings) cb (persist_last_error "" s) []
      with ⟨res, acts₂, s₂⟩
    obtain ⟨res₀, a₀, t₀, heq, -, -, -, hnow₂0, hpc₂0, -, -, -, -, hacts₂0, -⟩ :=
      apply_mode_spec env cfg (pyLower (pyStrip m)) (current_mode s.settings)
        cb (persist_last_error "" s) [] hv
    rw [happ] at heq
    injection heq with h1 hrest
    injection hrest with h2 h3
    subst h2; subst h3
    obtain ⟨δa, hδa⟩ := hacts₂0
    have hpc₂ : s₂.pauseCalls =
        s.pauseCalls + pauseCount (pyLower (pyStrip m)) cb := hpc₂0
    have hnow₂ : s₂.now = s.now := hnow₂0
    cases res with
    | ok uu =>
      rw [switchPath_ok_eq env cfg (pyLower (pyStrip m))
          (current_mode s.settings) cb s happ]
      have htseq : statusTsParse
          (persist_last_error ""
            (persist_actions acts₂
              (persist_mode (pyLower (pyStrip m)) s₂))).settings =
          tsChain (toString s₂.now) :=
        (statusTsParse_persist_last_error ""
          (persist_actions acts₂ (persist_mode (pyLower (pyStrip m)) s₂))).trans
          (statusTsParse_persist_mode (pyLower (pyStrip m)) s₂)
      have hts : statusTsParse
          (persist_last_error ""
            (persist_actions acts₂
              (persist_mode (pyLower (pyStrip m)) s₂))).settings = .ok k := by
        rw [htseq, hnow₂]; exact hk
      obtain ⟨p, s₅, hstEq, hcmd, -, -, -, -, -⟩ :=
        get_status_true_ok env cfg
          (s := { persist_last_error ""
                    (persist_actions acts₂
                      (persist_mode (pyLower (pyStrip m)) s₂)) with
                  statusCacheTs := 0 }) hts
      rw [hstEq]
      obtain ⟨-, -, hlastc, hpcc, -, -⟩ := hcmd
      have h₅ : s₅.pauseCalls = s₂.pauseCalls := hpcc
      have hl₅ : s₅.lastActionsStored = acts₂ := hlastc
      refine ⟨h₅.trans hpc₂, δa, ?_⟩
      show s₅.lastActionsStored = pauseActs (pyLower (pyStrip m)) cb ++ δa
      rw [hl₅, hδa]; simp
    | error e =>
      have ht : pyLower (pyStrip m) ≠ "mute" := by
        intro hEq
        obtain ⟨a₃, s₃, hmute⟩ := apply_mode_mute_ok env cfg
          (current_mode s.settings) cb (persist_last_error "" s) []
        rw [hEq] at happ
        rw [happ] at hmute
        simp at hmute
      obtain ⟨resF, aF, tF, heqF, -, -, -, hnowF0, hpcF0, -, -, -, -, hactsF0, hmF⟩ :=
        apply_mode_spec env cfg "mute" (pyLower (pyStrip m)) none s₂
          (acts₂ ++ [.switchError e]) (by decide)
      obtain ⟨hrF, -, -⟩ := hmF rfl
      rw [hrF] at heqF
      rw [switchPath_error_eq env cfg (pyLower (pyStrip m))
          (current_mode s.settings) cb s ht happ heqF]
      have hnowtF : tF.now = s.now := hnowF0.trans hnow₂
      have htseq : statusTsParse
          (persist_last_error e
            (persist_actions aF (persist_mode "mute" tF))).settings =
          tsChain (toString tF.now) :=
        (statusTsParse_persist_last_error e
          (persist_actions aF (persist_mode "mute" tF))).trans
          (statusTsParse_persist_mode "mute" tF)
      have hts : statusTsParse
          (persist_last_error e
            (persist_actions aF (persist_mode "mute" tF))).settings = .ok k := by
        rw [htseq, hnowtF]; exact hk
      obtain ⟨p, s₅, hstEq, hcmd, -, -, -, -, -⟩ :=
        get_status_true_ok env cfg
          (s := { persist_last_error e
                    (persist_actions aF (persist_mode "mute" tF)) with
                  statusCacheTs := 0 }) hts
      rw [hstEq]
      obtain ⟨-, -, hlastc, hpcc, -, -⟩ := hcmd
      have h₅ : s₅.pauseCalls = tF.pauseCalls := hpcc
      have hl₅ : s₅.lastActionsStored = aF := hlastc
      have hpcF : tF.pauseCalls = s₂.pauseCalls := by
        rw [hpcF0, show pauseCount "mute" none = 0 from by decide]
        exact Nat.add_zero _
      obtain ⟨δb, hbF⟩ := hactsF0
      refine ⟨h₅.trans (hpcF.trans hpc₂),
              δa ++ ([.switchError e] ++ δb), ?_⟩
      show s₅.lastActionsStored =
        pauseActs (pyLower (pyStrip m)) cb ++ (δa ++ ([.switchError e] ++ δb))
      rw [hl₅, hbF, hδa]
      simp [pauseActs, List.append_assoc]
  exact ⟨hmain.1, hmain.2, rfl⟩

theorem C7_witness :
    (set_media_mode envC7 {} "partybox" (some (.ret true "")) false
        sC7).2.pauseCalls =
      sC7.pauseCalls + pauseCount (pyLower (pyStrip "partybox"))
        (some (.ret true "")) ∧
    (∃ rest, (set_media_mode envC7 {} "partybox" (some (.ret true "")) false
        sC7).2.lastActionsStored =
      pauseActs (pyLower (pyStrip "partybox")) (some (.ret true "")) ++ rest) ∧
    set_media_mode envC7 {} "partybox" (some (.raiseEx "boom")) false sC7 =
      set_media_mode envC7 {} "partybox" (some (.ret false "boom")) false sC7 :=
  C7_pause_keyed_on_target envC7 {} "partybox" (some (.ret true "")) false sC7
    "boom" (by decide) (by decide) ⟨100, by rfl⟩

/-- Claim C4: while the remaining cooldown is strictly positive (and the
client is configured), `get_state` performs no live HTTP fetch and touches
no state at all; the returned snapshot has `state="cooldown"` with the
remaining seconds, carries the cached track/device data when a cache
exists, and otherwise is a synthetic cooldown snapshot reporting the stored
reason string. -/
theorem C4_cooldown_no_fetch (env : HEnv) (cfg : SpConfig)
    (force allowFetch : Bool) (s : SpState)
    (hen : cfg.enabled = true) (hcd : cooldown_remaining s > 0) :
    (get_state env cfg force allowFetch s).2 = s ∧
    (get_state env cfg force allowFetch s).2.httpTrace = s.httpTrace ∧
    (get_state env cfg force allowFetch s).1.state = "cooldown" ∧
    (get_state env cfg force allowFetch s).1.cooldown_remaining_s =
      some (cooldown_remaining s) ∧
    (∀ c, s.cache_state = some c →
      (get_state env cfg force allowFetch s).1.track = c.track ∧
      (get_state env cfg force allowFetch s).1.device = c.device ∧
      (get_state env cfg force allowFetch s).1.cached = true) ∧
    (s.cache_state = none →
      (get_state env cfg force allowFetch s).1.ok = false ∧
      (get_state env cfg force allowFetch s).1.cached = true ∧
      (s.cooldown_reason ≠ "" →
        (get_state env cfg force allowFetch s).1.error =
          some s.cooldown_reason)) := by
  simp only [get_state]
  rw [if_neg (by rw [hen]; simp)]
  rw [if_pos hcd]
  rcases hcs : s.cache_state with _ | c
  · refine ⟨rfl, rfl, rfl, rfl, ?_, ?_⟩
    · intro c hc
      simp at hc
    · intro hn
      refine ⟨rfl, rfl, ?_⟩
      intro hr
      simp only [decorate, empty_state]
      rw [if_pos hr]
      rw [if_pos hr]
  · refine ⟨rfl, rfl, rfl, rfl, ?_, ?_⟩
    · intro c' hc'
      injection hc' with h
      subst h
      exact ⟨rfl, rfl, rfl⟩
    · intro hn
      simp at hn

theorem C4_witness :
    cfgC4.enabled = true ∧ cooldown_remaining sC4 > 0 ∧
    (get_state envC4 cfgC4 false true sC4).2 = sC4 ∧
    (get_state envC4 cfgC4 false true sC4).1.state = "cooldown" ∧
    (get_state envC4 cfgC4 false true sC4).1.track = snapC4.track := by
  have h := C4_cooldown_no_fetch envC4 cfgC4 false true sC4 (by decide) (by decide)
  exact ⟨by decide, by decide, h.1, h.2.2.1, (h.2.2.2.2.1 snapC4 rfl).1⟩

/-- Claim C5: when a call reaches the live fetch (client configured, no
active cooldown, fetching allowed, fresh-cache guard down) and the fetch
ultimately fails, then with a prior cached snapshot the returned snapshot
keeps the cached track and device fields, is marked `cached=true`, and its
`state` is overwritten to `"cooldown"` or `"error"`; with no prior cache
the raw fetch-result snapshot is returned (`cached=false`). -/
theorem C5_stale_while_error (env : HEnv) (cfg : SpConfig) (force : Bool)
    (s : SpState) (hen : cfg.enabled = true)
    (hcd0 : cooldown_remaining s = 0)
    (hfresh : (!force && s.cache_state.isSome &&
      decide (s.now - s.cache_ts < cfg.cache_seconds)) = false)
    (hfail : (fetch_live_state env cfg s).1.ok = false) :
    (∀ c, s.cache_state = some c →
      (get_state env cfg force true s).1.track = c.track ∧
      (get_state env cfg force true s).1.device = c.device ∧
      (get_state env cfg force true s).1.cached = true ∧
      ((get_state env cfg force true s).1.state = "cooldown" ∨
       (get_state env cfg force true s).1.state = "error")) ∧
    (s.cache_state = none →
      (get_state env cfg force true s).1.state =
        (fetch_live_state env cfg s).1.state ∧
      (get_state env cfg force true s).1.error =
        (fetch_live_state env cfg s).1.error ∧
      (get_state env cfg force true s).1.track =
        (fetch_live_state env cfg s).1.track ∧
      (get_state env cfg force true s).1.cached = false) := by
  rcases hf : fetch_live_state env cfg s with ⟨st, s₁⟩
  rw [hf] at hfail
  have hfail2 : st.ok = false := hfail
  have hfr : SpFrame s s₁ := by
    have h := fetch_live_state_frame env cfg s
    rw [hf] at h; exact h
  have hfs : st.state = "cooldown" ∨ st.state = "error" := by
    have h := fetch_live_state_fail_state env cfg s
    rw [hf] at h; exact h hfail2
  rw [get_state_fetch_eq env cfg force s hen hcd0 hfresh hf]
  constructor
  · intro c hc
    have hsome : ({ s₁ with last_fetch_ts := s.now } : SpState).cache_state =
        some c := by
      show s₁.cache_state = some c
      rw [hfr.1, hc]
    have hcond : (!st.ok &&
        ({ s₁ with last_fetch_ts := s.now } : SpState).cache_state.isSome) =
        true := by
      rw [hfail2, hsome]; rfl
    rw [if_pos hcond]
    obtain ⟨ht, hd, hs⟩ := staleOf_some st hsome
    refine ⟨ht, hd, rfl, ?_⟩
    have hstate : (staleOf st { s₁ with last_fetch_ts := s.now }).state =
        "cooldown" ∨
        (staleOf st { s₁ with last_fetch_ts := s.now }).state = "error" := by
      rw [hs]
      by_cases hcd2 : cooldown_remaining
          ({ s₁ with last_fetch_ts := s.now } : SpState) > 0
      · left; rw [if_pos hcd2]
      · rw [if_neg hcd2]
        by_cases hss : st.state = ""
        · right; rw [if_pos hss]
        · rw [if_neg hss]
          exact hfs
    exact hstate
  · intro hn
    have hnone : ({ s₁ with last_fetch_ts := s.now } : SpState).cache_state =
        none := by
      show s₁.cache_state = none
      rw [hfr.1, hn]
    have hcondF : (!st.ok &&
        ({ s₁ with last_fetch_ts := s.now } : SpState).cache_state.isSome) =
        false := by
      rw [hnone]
      simp
    rw [if_neg (by rw [hcondF]; simp)]
    exact ⟨rfl, rfl, rfl, rfl⟩

theorem C5_witness :
    cfgC5.enabled = true ∧ cooldown_remaining sC5 = 0 ∧
    (fetch_live_state envC5 cfgC5 sC5).1.ok = false ∧
    (get_state envC5 cfgC5 true true sC5).1.track = snapC5.track ∧
    (get_state envC5 cfgC5 true true sC5).1.cached = true ∧
    ((get_state envC5 cfgC5 true true sC5).1.state = "cooldown" ∨
     (get_state envC5 cfgC5 true true sC5).1.state = "error") := by
  have h := C5_stale_while_error envC5 cfgC5 true sC5 (by decide) (by decide)
    (by decide) (by rfl)
  have h2 := h.1 snapC5 rfl
  exact ⟨by decide, by decide, by rfl, h2.1, h2.2.2.1, h2.2.2.2⟩

/-- Claim C8 counterexample: the claim says the cached snapshot is replaced
only by a successful or cooldown-triggering fetch and "persists across
fetch failures unchanged", but a plain failed fetch (no cooldown entered,
result not ok) with a cache present rewrites both the cached payload (its
`state` is overwritten) and the fetch timestamp. -/
theorem C8_counterexample :
    (fetch_live_state envC8 cfgC8 sC8).1.ok = false ∧
    cooldown_remaining (get_state envC8 cfgC8 true true sC8).2 = 0 ∧
    (get_state envC8 cfgC8 true true sC8).2.cache_state ≠ sC8.cache_state ∧
    (get_state envC8 cfgC8 true true sC8).2.cache_ts ≠ sC8.cache_ts := by
  exact ⟨by decide, by decide, by decide, by decide⟩

/-- Claim C8 (amended): on every call, either the whole client state —
cache included — is returned untouched (the disabled, cooldown, fetch-not-
allowed and fresh-cache paths), or a live fetch ran and the cache is
replaced wholesale with its fetch timestamp set to now; in the replacement
after a **failed** fetch with a prior cache, the new cached snapshot keeps
the old track and device data but has its `state` overwritten to
`"cooldown"` or `"error"` — so a failed fetch does rewrite the cache rather
than leaving it unchanged. -/
theorem C8_cache_replaced_only_by_fetch (env : HEnv) (cfg : SpConfig)
    (force allowFetch : Bool) (s : SpState) :
    (get_state env cfg force allowFetch s).2 = s ∨
    ((get_state env cfg force allowFetch s).2.cache_ts = s.now ∧
     ∃ snap, (get_state env cfg force allowFetch s).2.cache_state = some snap ∧
       ((fetch_live_state env cfg s).1.ok = false →
         ∀ c, s.cache_state = some c →
           snap.track = c.track ∧ snap.device = c.device ∧
           (snap.state = "cooldown" ∨ snap.state = "error"))) := by
  by_cases hen : cfg.enabled = true
  · by_cases hcd : cooldown_remaining s > 0
    · left
      simp only [get_state]
      rw [if_neg (by rw [hen]; simp)]
      rw [if_pos hcd]
      rcases hcs : s.cache_state with _ | c
      · rfl
      · rfl
    · cases allowFetch with
      | false =>
        left
        simp only [get_state]
        rw [if_neg (by rw [hen]; simp)]
        rw [if_neg hcd]
        rw [if_pos (by rfl)]
        rcases hcs : s.cache_state with _ | c
        · rfl
        · rfl
      | true =>
        by_cases hfreshc : (!force && s.cache_state.isSome &&
            decide (s.now - s.cache_ts < cfg.cache_seconds)) = true
        · left
          simp only [get_state]
          rw [if_neg (by rw [hen]; simp)]
          rw [if_neg hcd]
          rw [if_neg (by simp)]
          rw [if_pos hfreshc]
        · right
          have hcd0 : cooldown_remaining s = 0 := Nat.eq_zero_of_not_pos hcd
          have hfresh : (!force && s.cache_state.isSome &&
              decide (s.now - s.cache_ts < cfg.cache_seconds)) = false := by
            cases hb : (!force && s.cache_state.isSome &&
                decide (s.now - s.cache_ts < cfg.cache_seconds)) with
            | true => exact absurd hb hfreshc
            | false => rfl
          rcases hf : fetch_live_state env cfg s with ⟨st, s₁⟩
          rw [get_state_fetch_eq env cfg force s hen hcd0 hfresh hf]
          have hfr : SpFrame s s₁ := by
            have h := fetch_live_state_frame env cfg s
            rw [hf] at h; exact h
          have hfsd := fetch_live_state_fail_state env cfg s
          rw [hf] at hfsd
          by_cases hcond : (!st.ok &&
              ({ s₁ with last_fetch_ts := s.now } : SpState).cache_state.isSome) =
              true
          · rw [if_pos hcond]
            refine ⟨rfl, staleOf st { s₁ with last_fetch_ts := s.now }, rfl, ?_⟩
            intro hfail c hc
            have hfail2 : st.ok = false := hfail
            have hsome : ({ s₁ with last_fetch_ts := s.now } : SpState).cache_state =
                some c := by
              show s₁.cache_state = some c
              rw [hfr.1, hc]
            obtain ⟨ht, hd, hs⟩ := staleOf_some st hsome
            refine ⟨ht, hd, ?_⟩
            rw [hs]
            by_cases hcd2 : cooldown_remaining
                ({ s₁ with last_fetch_ts := s.now } : SpState) > 0
            · left; rw [if_pos hcd2]
            · rw [if_neg hcd2]
              by_cases hss : st.state = ""
              · right; rw [if_pos hss]
              · rw [if_neg hss]
                exact hfsd hfail2
          · rw [if_neg hcond]
            refine ⟨rfl, st, rfl, ?_⟩
            intro hfail c hc
            exfalso
            apply hcond
            have hfail2 : st.ok = false := hfail
            have hsome : ({ s₁ with last_fetch_ts := s.now } : SpState).cache_state =
                some c := by
              show s₁.cache_state = some c
              rw [hfr.1, hc]
            rw [hfail2, hsome]
            rfl
  · left
    have he : cfg.enabled = false := by
      cases h : cfg.enabled with
      | true => exact absurd h hen
      | false => rfl
    simp only [get_state]
    rw [if_pos (by rw [he]; rfl)]

end PartyboxSpec
